import Mathlib

/-!
Verification development for the ProteinStruct-Containers repository.

The repository contains three Singularity launcher scripts
(`run_alphafold3_launcher.py`, `boltz/run_boltz_launcher.py`,
`chai_1/run_chailab_launcher.py`).  Each launcher resolves host paths to
container bind mounts (`_create_bind`), assembles the wrapped tool's
command line from flag values, and invokes the container runtime.

This file shallowly embeds the path manipulation (the `os.path` functions
the scripts call), the filesystem state that those scripts observe
(existence / is-dir / is-file / non-empty-listing, plus the effect of
`os.makedirs(..., exist_ok=True)`), the three `_create_bind` functions,
the three command assemblies, and the launchers' `main` control flow up to
the container invocation.  Paths are modelled as the strings the Python
code manipulates; all definitions are structurally recursive so concrete
instances evaluate by `decide` / `rfl`.
-/

/-! ### The `os.path` (posixpath) functions used by the launchers -/

/-- `str.split('/')` on the character list of a path (Python never returns
an empty list here: splitting the empty string yields `[""]`). -/
def splitSlash : List Char → List (List Char)
  | [] => [[]]
  | c :: cs =>
    let r := splitSlash cs
    if c = '/' then [] :: r
    else
      match r with
      | h :: t => (c :: h) :: t
      | [] => [[c]]

/-- `'/'.join(components)`. -/
def joinSlash : List (List Char) → List Char
  | [] => []
  | [c] => c
  | c :: cs => c ++ '/' :: joinSlash cs

/-- `os.path.isabs`: the path starts with `'/'`. -/
def isAbs (p : String) : Bool := p.data.take 1 = ['/']

/-- Number of leading slashes preserved by `posixpath.normpath`
(1 for `/...`, 2 for exactly `//...`, 1 again for `///...`). -/
def initialSlashes (p : String) : Nat :=
  if p.data.take 1 = ['/'] then
    if p.data.take 2 = ['/', '/'] ∧ ¬ p.data.take 3 = ['/', '/', '/'] then 2 else 1
  else 0

/-- Whether the most recently kept component is `".."`. -/
def headIsDotDot (acc : List (List Char)) : Bool :=
  decide (acc.head? = some ['.', '.'])

/-- One step of `posixpath.normpath`'s component loop; `acc` holds the kept
components in reverse order. -/
def normStep (ns : Nat) (acc : List (List Char)) (comp : List Char) : List (List Char) :=
  if comp = [] ∨ comp = ['.'] then acc
  else if ¬ comp = ['.', '.'] ∨ (ns = 0 ∧ acc = []) ∨ headIsDotDot acc then comp :: acc
  else acc.tail

/-- `posixpath.normpath`. -/
def normpath (p : String) : String :=
  if p = "" then "."
  else
    let ns := initialSlashes p
    let comps := splitSlash p.data
    let kept := (comps.foldl (normStep ns) []).reverse
    let res := List.replicate ns '/' ++ joinSlash kept
    if res = [] then "." else String.mk res

/-- `p.endswith('/')`. -/
def endsSlash (p : String) : Bool := p.data.getLast? = some '/'

/-- Two-argument `posixpath.join`. -/
def pjoin (a b : String) : String :=
  if isAbs b then b
  else if a = "" ∨ endsSlash a then a ++ b
  else a ++ "/" ++ b

/-- `os.path.abspath` relative to working directory `cwd`:
`normpath(join(cwd, path))` for relative paths, `normpath(path)` otherwise. -/
def abspath (cwd p : String) : String :=
  if isAbs p then normpath p else normpath (pjoin cwd p)

/-- `os.path.basename`: the part after the last `'/'`. -/
def basename (p : String) : String :=
  String.mk ((splitSlash p.data).getLastD [])

/-- `os.path.dirname`: everything up to the last `'/'`, with trailing
slashes stripped unless the head consists solely of slashes. -/
def dirname (p : String) : String :=
  let head := (p.data.reverse.dropWhile (fun c => ¬ c = '/')).reverse
  if head = [] ∨ head.all (fun c => c = '/') then String.mk head
  else String.mk (head.reverse.dropWhile (fun c => c = '/')).reverse

/-- `str.rstrip('/')`. -/
def rstripSlash (s : String) : String :=
  String.mk (s.data.reverse.dropWhile (fun c => c = '/')).reverse

/-- `os.path.expanduser` with the current user's home directory `home` and
the `pwd`-database lookup `userHomes` for `~user` forms. -/
def expanduser (home : String) (userHomes : String → Option String) (p : String) : String :=
  match p.data with
  | '~' :: rest =>
    let userPart := rest.takeWhile (fun c => ¬ c = '/')
    let tail := String.mk (rest.drop userPart.length)
    let uh? := if userPart = [] then some home else userHomes (String.mk userPart)
    match uh? with
    | none => p
    | some uh =>
      let res := rstripSlash uh ++ tail
      if res = "" then "/" else res
  | _ => p

/-- Python `s.startswith(pre)`. -/
def pyStartsWith (s pre : String) : Bool := s.data.take pre.data.length = pre.data

/-! ### Host filesystem state

Only the predicates the scripts actually query are modelled:
`os.path.exists`, `os.path.isdir`, `os.path.isfile`, and the truthiness of
`os.listdir` (all on the path strings the scripts pass).  The only mutation
the launchers perform before invoking the container is
`os.makedirs(p, exist_ok=True)`, which makes `p` and all its ancestors
exist as directories and never raises on pre-existing directories.  The
scripts never re-read `listNonempty` after a `makedirs`, so `mkdirs`
leaves it unchanged. -/

structure FS where
  present : String → Bool
  dirAt : String → Bool
  fileAt : String → Bool
  listNonempty : String → Bool

/-- `q` is `p` itself, the root, or a proper ancestor of `p` (prefix at a
`'/'` boundary); the paths `makedirs p` brings into existence. -/
def ancOrSelf (q p : String) : Bool :=
  q = p ∨ q = "/" ∨ pyStartsWith p (q ++ "/")

/-- Effect of `os.makedirs(p, exist_ok=True)` on the filesystem state. -/
def mkdirs (fs : FS) (p : String) : FS :=
  ⟨fun q => fs.present q || ancOrSelf q p,
   fun q => fs.dirAt q || ancOrSelf q p,
   fs.fileAt,
   fs.listNonempty⟩

/-- Result of a successful `_create_bind` call: the Singularity bind
specification string, the corresponding path inside the container, and the
(possibly updated) host filesystem. -/
structure BindRes where
  spec : String
  cpath : String
  fs : FS

/-! ### Shared command-assembly helpers

Python's `if cond: args.append(tok)` and `if opt is not None: ...` /
truthiness patterns, as list fragments. -/

/-- Emit a single token when the condition holds. -/
def emitIf (c : Prop) [Decidable c] (tok : String) : List String :=
  if c then [tok] else []

/-- Emit the fragments for a `some` value, nothing for `none`. -/
def optEmit {α : Type} (o : Option α) (f : α → List String) : List String :=
  match o with
  | some a => f a
  | none => []

/-- Python `str(bool).lower()`. -/
def pyBool (b : Bool) : String := if b then "true" else "false"

/-- Python truthiness of an optional string flag (unset or `''` is falsy). -/
def truthyOpt (o : Option String) : Bool :=
  match o with
  | some s => decide (¬ s = "")
  | none => false

/-- Python truthiness of an optional list flag (unset or `[]` is falsy). -/
def truthyList (o : Option (List String)) : Bool :=
  match o with
  | some l => !l.isEmpty
  | none => false

/-- The container invocation assembled by a launcher: the command executed
inside the container and whether the NVIDIA runtime (`--nv`) is enabled. -/
structure Invocation where
  command : List String
  nv : Bool

/-- Launcher-visible state threaded through `main`: the host filesystem and
the accumulated Singularity bind specifications, in order. -/
structure St where
  fs : FS
  binds : List String

/-! ### Chai Lab launcher (`chai_1/run_chailab_launcher.py`) -/

namespace chai

/-- `_ROOT_MOUNT_DIRECTORY`. -/
def ROOT : String := "/mnt/"

/-- Hardcoded fallback Singularity image path. -/
def HARD_SIF : String := "/path/to/your/chai_lab.sif"

/-- The mount names for which `_create_bind` creates the host directory
instead of requiring existence. -/
def writableMount (name : String) : Bool :=
  pyStartsWith name "output" || name = "tmp"

/-- `_create_bind(mount_point_name, host_path, is_dir)`: normalizes the
host path with `os.path.abspath`, computes source / target / container
paths, creates the source directory for writable mounts, exits with code 1
when a non-writable source does not exist. -/
def createBind (fs : FS) (cwd name hostPath : String) (isDir : Bool) :
    Except Nat BindRes :=
  let host := abspath cwd hostPath
  let targetBase := pjoin ROOT name
  let source := if isDir then host else dirname host
  let container := if isDir then targetBase else pjoin targetBase (basename host)
  if writableMount name then
    .ok ⟨source ++ ":" ++ targetBase, container, mkdirs fs source⟩
  else if fs.present source then
    .ok ⟨source ++ ":" ++ targetBase, container, fs⟩
  else
    .error 1

/-- The command-line flags of the Chai launcher. -/
structure Flags where
  sif_path : Option String
  fasta_file : Option String
  output_dir : String
  force_output_dir : Bool
  use_gpu : Bool
  gpu_devices : String
  use_esm_embeddings : Bool
  use_msa_server : Bool
  msa_server_url : String
  msa_directory : Option String
  constraint_path : Option String
  use_templates_server : Bool
  template_hits_path : Option String
  recycle_msa_subsample : Int
  num_trunk_recycles : Int
  num_diffn_timesteps : Int
  num_diffn_samples : Int
  num_trunk_samples : Int
  seed : Option Int
  device : Option String
  low_memory : Bool

/-- The flag defaults recorded in the `flags.DEFINE_*` calls (path-like
defaults that depend on the environment are irrelevant to command
assembly and set to their simplest instances). -/
def flagDefaults : Flags :=
  ⟨none, none, "chailab_output", false, true, "all", true, false,
   "https://api.colabfold.com", none, none, false, none,
   0, 3, 200, 5, 1, none, none, true⟩

/-- The boolean/scalar flag portion of the assembled `chai-lab fold`
command (lines 170-196 of the launcher). -/
def flagArgs (fl : Flags) : List String :=
  emitIf (fl.use_esm_embeddings = false) "--use-esm-embeddings=false"
  ++ emitIf (fl.use_msa_server = true) "--use-msa-server"
  ++ emitIf (fl.use_templates_server = true) "--use-templates-server"
  ++ emitIf (fl.low_memory = false) "--low-memory=false"
  ++ emitIf (¬ fl.msa_server_url = "https://api.colabfold.com")
      ("--msa-server-url=" ++ fl.msa_server_url)
  ++ emitIf (¬ fl.recycle_msa_subsample = 0)
      ("--recycle-msa-subsample=" ++ toString fl.recycle_msa_subsample)
  ++ emitIf (¬ fl.num_trunk_recycles = 3)
      ("--num-trunk-recycles=" ++ toString fl.num_trunk_recycles)
  ++ emitIf (¬ fl.num_diffn_timesteps = 200)
      ("--num-diffn-timesteps=" ++ toString fl.num_diffn_timesteps)
  ++ emitIf (¬ fl.num_diffn_samples = 5)
      ("--num-diffn-samples=" ++ toString fl.num_diffn_samples)
  ++ emitIf (¬ fl.num_trunk_samples = 1)
      ("--num-trunk-samples=" ++ toString fl.num_trunk_samples)
  ++ optEmit fl.seed (fun s => ["--seed=" ++ toString s])
  ++ optEmit fl.device (fun d => emitIf (¬ d = "") ("--device=" ++ d))

/-- `chai_command_args`: container paths of the optional bound inputs
(when their flags were set) followed by the boolean/scalar flags. -/
def commandArgs (msaDir conPath tmplHits : Option String) (fl : Flags) : List String :=
  optEmit msaDir (fun d => ["--msa-directory=" ++ d])
  ++ optEmit conPath (fun c => ["--constraint-path=" ++ c])
  ++ optEmit tmplHits (fun t => ["--template-hits-path=" ++ t])
  ++ flagArgs fl

/-- Main's output-directory handling: when the requested directory exists,
is non-empty, and `--force_output_dir` is false, a `run_<timestamp>`
subdirectory is used instead (the timestamp string is the launcher's
`datetime.now().strftime(...)` value, passed in as `ts`). -/
def actualOutputDir (fs : FS) (outputDir ts : String) (force : Bool) : String :=
  if fs.present outputDir && fs.listNonempty outputDir && !force then
    pjoin outputDir ("run_" ++ ts)
  else outputDir

/-- The image path actually used: the `--sif_path` flag when truthy, else
the environment variable when set, else the hardcoded fallback. -/
def sifPath (flagSif envSif : Option String) : String :=
  let hard := match envSif with
    | some s => s
    | none => HARD_SIF
  match flagSif with
  | some s => if s = "" then hard else s
  | none => hard

/-- Optional path-flag binding inside `main` (`msa_directory`,
`constraint_path`, `template_hits_path`): bind only when the flag is
truthy, returning the new filesystem, the bind fragment, and the container
path for the command line. -/
def optBind (fs : FS) (cwd : String) (o : Option String) (name : String)
    (isDir : Bool) : Except Nat (FS × List String × Option String) :=
  if truthyOpt o then
    match createBind fs cwd name (o.getD "") isDir with
    | .error n => .error n
    | .ok r => .ok (r.fs, [r.spec], some r.cpath)
  else .ok (fs, [], none)

/-- The Chai launcher's `main` up to the container invocation: image check,
required-flag checks, bind resolution in source order (fasta, output with
timestamping, optional msa/constraints/template binds, tmp), command
assembly.  Returns the invocation or the `sys.exit` code, together with
the final filesystem and the accumulated bind list. -/
def run (envSif : Option String) (cwd tmpDir ts : String) (fl : Flags)
    (fs : FS) : Except Nat Invocation × St :=
  let st0 : St := ⟨fs, []⟩
  let sif := sifPath fl.sif_path envSif
  if !fs.present sif then (.error 1, st0)
  else if !truthyOpt fl.fasta_file then (.error 1, st0)
  else if fl.output_dir = "" then (.error 1, st0)
  else
    match createBind fs cwd "fasta" (fl.fasta_file.getD "") false with
    | .error n => (.error n, st0)
    | .ok r1 =>
      let aOut := actualOutputDir r1.fs fl.output_dir ts fl.force_output_dir
      let fs2 := mkdirs r1.fs aOut
      match createBind fs2 cwd "output" aOut true with
      | .error n => (.error n, ⟨fs2, [r1.spec]⟩)
      | .ok r2 =>
        match optBind r2.fs cwd fl.msa_directory "msa_dir" true with
        | .error n => (.error n, ⟨r2.fs, [r1.spec, r2.spec]⟩)
        | .ok (fs3, b3, msaCp) =>
          match optBind fs3 cwd fl.constraint_path "constraints" false with
          | .error n => (.error n, ⟨fs3, [r1.spec, r2.spec] ++ b3⟩)
          | .ok (fs4, b4, conCp) =>
            match optBind fs4 cwd fl.template_hits_path "template_hits" false with
            | .error n => (.error n, ⟨fs4, [r1.spec, r2.spec] ++ b3 ++ b4⟩)
            | .ok (fs5, b5, tmplCp) =>
              match createBind fs5 cwd "tmp" tmpDir true with
              | .error n => (.error n, ⟨fs5, [r1.spec, r2.spec] ++ b3 ++ b4 ++ b5⟩)
              | .ok r6 =>
                let cmd := ["chai-lab", "fold", r1.cpath, r2.cpath]
                  ++ commandArgs msaCp conCp tmplCp fl
                (.ok ⟨cmd, fl.use_gpu⟩,
                 ⟨r6.fs, [r1.spec, r2.spec] ++ b3 ++ b4 ++ b5 ++ [r6.spec]⟩)

end chai

/-! ### Boltz launcher (`boltz/run_boltz_launcher.py`) -/

namespace boltz

/-- `_ROOT_MOUNT_DIRECTORY` ("a more unique root to avoid clashes"). -/
def ROOT : String := "/mnt_launcher/"

/-- Hardcoded fallback Singularity image path. -/
def HARD_SIF : String := "/path/to/your/boltz.sif"

/-- Mount names for which `_create_bind` creates the host directory. -/
def writableMount (name : String) : Bool :=
  pyStartsWith name "output" || name = "tmp" || name = "boltz_cache"

/-- `_create_bind(mount_point_name, host_path, is_dir, read_only)`:
normalizes the host path with `abspath(expanduser(...))`; for writable
mounts runs `os.makedirs(host_path)` (note: the host path, not the
source), for the rest exits with code 1 when the bind source does not
exist; appends `:ro` for read-only binds.  The Singularity bind target is
always the mount base, while the returned container path appends the
file's base name for file binds. -/
def createBind (fs : FS) (cwd home : String) (userHomes : String → Option String)
    (name hostPath : String) (isDir readOnly : Bool) : Except Nat BindRes :=
  let host := abspath cwd (expanduser home userHomes hostPath)
  let targetBase := pjoin ROOT name
  let source := if isDir then host else dirname host
  let container := if isDir then targetBase else pjoin targetBase (basename host)
  let ro := if readOnly then ":ro" else ""
  if writableMount name then
    .ok ⟨source ++ ":" ++ targetBase ++ ro, container, mkdirs fs host⟩
  else if fs.present source then
    .ok ⟨source ++ ":" ++ targetBase ++ ro, container, fs⟩
  else
    .error 1

/-- The command-line flags of the Boltz launcher. -/
structure Flags where
  sif_path : Option String
  input_data : Option String
  out_dir : String
  boltz_cache_dir : String
  checkpoint : Option String
  use_gpu : Bool
  gpu_devices : String
  devices : Int
  accelerator : String
  recycling_steps : Int
  sampling_steps : Int
  diffusion_samples : Int
  step_scale : ℚ
  write_full_pae : Bool
  write_full_pde : Bool
  output_format : String
  num_workers : Int
  override : Bool
  seed : Option Int
  use_msa_server : Bool
  msa_server_url : String
  msa_pairing_strategy : String
  enable_potentials : Bool

/-- The flag defaults recorded in the `flags.DEFINE_*` calls (the float
default 1.638 is represented exactly as a rational; environment-dependent
path defaults are set to their simplest instances). -/
def flagDefaults : Flags :=
  ⟨none, none, "boltz_output", "/root/.boltz", none, true, "all",
   1, "gpu", 3, 200, 1, 1.638, false, false, "mmcif", 2, false, none,
   false, "https://api.colabfold.com", "greedy", true⟩

/-- The boolean/scalar flag portion of the assembled `boltz predict`
command (lines 170-201 of the launcher).  The float comparison
`abs(FLAGS.step_scale - 1.638) > 1e-6` is carried out over `ℚ`. -/
def flagArgs (fl : Flags) : List String :=
  [if fl.write_full_pae then "--write_full_pae" else "--no-write-full-pae"]
  ++ [if fl.write_full_pde then "--write_full_pde" else "--no-write-full-pde"]
  ++ [if fl.override then "--override" else "--no-override"]
  ++ [if fl.use_msa_server then "--use_msa_server" else "--no-use-msa-server"]
  ++ [if fl.enable_potentials then "--potentials" else "--no_potentials"]
  ++ emitIf (¬ fl.devices = 1) ("--devices=" ++ toString fl.devices)
  ++ emitIf (¬ fl.accelerator = "gpu") ("--accelerator=" ++ fl.accelerator)
  ++ emitIf (¬ fl.recycling_steps = 3)
      ("--recycling_steps=" ++ toString fl.recycling_steps)
  ++ emitIf (¬ fl.sampling_steps = 200)
      ("--sampling_steps=" ++ toString fl.sampling_steps)
  ++ emitIf (¬ fl.diffusion_samples = 1)
      ("--diffusion_samples=" ++ toString fl.diffusion_samples)
  ++ emitIf (|fl.step_scale - 1.638| > 1e-6)
      ("--step_scale=" ++ toString fl.step_scale)
  ++ emitIf (¬ fl.output_format = "mmcif")
      ("--output_format=" ++ fl.output_format)
  ++ emitIf (¬ fl.num_workers = 2) ("--num_workers=" ++ toString fl.num_workers)
  ++ optEmit fl.seed (fun s => ["--seed=" ++ toString s])
  ++ (if fl.use_msa_server then
        emitIf (¬ fl.msa_server_url = "https://api.colabfold.com")
          ("--msa_server_url=" ++ fl.msa_server_url)
        ++ emitIf (¬ fl.msa_pairing_strategy = "greedy")
          ("--msa_pairing_strategy=" ++ fl.msa_pairing_strategy)
      else [])

/-- `boltz_args`: out-dir and cache container paths, the optional container
checkpoint path, then the boolean/scalar flags. -/
def commandArgs (cOut cCache : String) (chk : Option String) (fl : Flags) :
    List String :=
  ["--out_dir=" ++ cOut, "--cache=" ++ cCache]
  ++ optEmit chk (fun c => ["--checkpoint=" ++ c])
  ++ flagArgs fl

/-- The image path actually used, mirroring
`FLAGS.sif_path if FLAGS.sif_path else _BOLTZ_SIF_PATH`. -/
def sifPath (flagSif envSif : Option String) : String :=
  let hard := match envSif with
    | some s => s
    | none => HARD_SIF
  match flagSif with
  | some s => if s = "" then hard else s
  | none => hard

/-- The Boltz launcher's `main` up to the container invocation: image
check, required-flag check, bind resolution in source order (input data
with `os.path.isdir` dispatch, output and cache with `os.makedirs` in
`main`, optional checkpoint with an `os.path.isfile` check, tmp), command
assembly. -/
def run (envSif : Option String) (cwd home : String)
    (userHomes : String → Option String) (tmpDir : String) (fl : Flags)
    (fs : FS) : Except Nat Invocation × St :=
  let st0 : St := ⟨fs, []⟩
  let sif := sifPath fl.sif_path envSif
  if !fs.present sif then (.error 1, st0)
  else if !truthyOpt fl.input_data then (.error 1, st0)
  else
    let isInputDir := fs.dirAt (fl.input_data.getD "")
    match createBind fs cwd home userHomes "input_data" (fl.input_data.getD "")
        isInputDir true with
    | .error n => (.error n, st0)
    | .ok r1 =>
      let fs2 := mkdirs r1.fs fl.out_dir
      match createBind fs2 cwd home userHomes "output" fl.out_dir true false with
      | .error n => (.error n, ⟨fs2, [r1.spec]⟩)
      | .ok r2 =>
        let fs3 := mkdirs r2.fs fl.boltz_cache_dir
        match createBind fs3 cwd home userHomes "boltz_cache" fl.boltz_cache_dir
            true false with
        | .error n => (.error n, ⟨fs3, [r1.spec, r2.spec]⟩)
        | .ok r3 =>
          let chkStep : Except Nat (FS × List String × Option String) :=
            if truthyOpt fl.checkpoint then
              if !r3.fs.fileAt (fl.checkpoint.getD "") then .error 1
              else
                match createBind r3.fs cwd home userHomes "checkpoint_file"
                    (fl.checkpoint.getD "") false true with
                | .error n => .error n
                | .ok r => .ok (r.fs, [r.spec], some r.cpath)
            else .ok (r3.fs, [], none)
          match chkStep with
          | .error n => (.error n, ⟨r3.fs, [r1.spec, r2.spec, r3.spec]⟩)
          | .ok (fs4, b4, chkCp) =>
            match createBind fs4 cwd home userHomes "tmp" tmpDir true false with
            | .error n => (.error n, ⟨fs4, [r1.spec, r2.spec, r3.spec] ++ b4⟩)
            | .ok r5 =>
              let cmd := ["boltz", "predict", r1.cpath]
                ++ commandArgs r2.cpath r3.cpath chkCp fl
              (.ok ⟨cmd, fl.use_gpu⟩,
               ⟨r5.fs, [r1.spec, r2.spec, r3.spec] ++ b4 ++ [r5.spec]⟩)

end boltz

/-! ### AlphaFold 3 launcher (`run_alphafold3_launcher.py`) -/

namespace af3

/-- `_ROOT_MOUNT_DIRECTORY`. -/
def ROOT : String := "/mnt/"

/-- Hardcoded fallback Singularity image path. -/
def HARD_SIF : String := "/path/to/your/alphafold3.sif"

/-- Mount names for which `_create_bind` creates the host directory. -/
def writableMount (name : String) : Bool :=
  pyStartsWith name "output" || name = "tmp"

/-- `_create_bind(mount_point_name, host_path, is_dir)`: unlike the other
two launchers it performs no existence check of any kind, so it never
exits; it creates the source directory for writable mounts. -/
def createBind (fs : FS) (cwd name hostPath : String) (isDir : Bool) : BindRes :=
  let host := abspath cwd hostPath
  let targetBase := pjoin ROOT name
  let source := if isDir then host else dirname host
  let container := if isDir then targetBase else pjoin targetBase (basename host)
  if writableMount name then ⟨source ++ ":" ++ targetBase, container, mkdirs fs source⟩
  else ⟨source ++ ":" ++ targetBase, container, fs⟩

/-- The command-line flags of the AlphaFold 3 launcher. -/
structure Flags where
  json_path : Option String
  input_dir : Option String
  output_dir : String
  force_output_dir : Bool
  model_dir : Option String
  db_dir : Option (List String)
  use_gpu : Bool
  gpu_devices : String
  run_data_pipeline : Bool
  run_inference : Bool
  jackhmmer_n_cpu : Int
  nhmmer_n_cpu : Int
  max_template_date : String
  conformer_max_iterations : Int
  num_recycles : Int
  num_diffusion_samples : Int
  num_seeds : Option Int
  flash_attention_implementation : String
  save_embeddings : Bool

/-- The flag defaults recorded in the `flags.DEFINE_*` calls.  The
`jackhmmer_n_cpu`/`nhmmer_n_cpu` defaults are
`min(multiprocessing.cpu_count(), 8)`, instantiated here for a host with
at least 8 CPUs; `output_dir` defaults to `os.getcwd() + '/alphafold3_output'`,
instantiated for `cwd = "/"`. -/
def flagDefaults : Flags :=
  ⟨none, none, "/alphafold3_output", false, none, none, true, "all",
   true, true, 8, 8, "2021-09-30", 10000, 10, 5, none, "triton", false⟩

/-- The input selection `main` makes: `--input_dir` wins over
`--json_path`; each contributes one container-path argument. -/
inductive InputSel where
  | dirSel (cp : String)
  | jsonSel (cp : String)
  | noSel

/-- The command-line fragment for the selected input. -/
def inputArgsOf : InputSel → List String
  | .dirSel cp => ["--input_dir=" ++ cp]
  | .jsonSel cp => ["--json_path=" ++ cp]
  | .noSel => []

/-- The unconditional tail of `command_args` (lines 249-268): every scalar
and boolean flag is passed through regardless of its default, plus
`--logtostderr`; only `num_seeds` is conditional (emitted when set). -/
def tailArgs (fl : Flags) : List String :=
  ["--run_data_pipeline=" ++ pyBool fl.run_data_pipeline,
   "--run_inference=" ++ pyBool fl.run_inference,
   "--conformer_max_iterations=" ++ toString fl.conformer_max_iterations,
   "--jackhmmer_n_cpu=" ++ toString fl.jackhmmer_n_cpu,
   "--nhmmer_n_cpu=" ++ toString fl.nhmmer_n_cpu,
   "--max_template_date=" ++ fl.max_template_date,
   "--num_recycles=" ++ toString fl.num_recycles,
   "--num_diffusion_samples=" ++ toString fl.num_diffusion_samples,
   "--flash_attention_implementation=" ++ fl.flash_attention_implementation,
   "--save_embeddings=" ++ pyBool fl.save_embeddings,
   "--force_output_dir=" ++ pyBool fl.force_output_dir,
   "--logtostderr"]
  ++ optEmit fl.num_seeds (fun n => ["--num_seeds=" ++ toString n])

/-- `command_args` as assembled by `main`: input selection, output, model,
one `--db_dir` per database container path, then the unconditional tail. -/
def commandArgs (inp : InputSel) (cOut cModel : String) (dbPaths : List String)
    (fl : Flags) : List String :=
  inputArgsOf inp
  ++ ["--output_dir=" ++ cOut, "--model_dir=" ++ cModel]
  ++ dbPaths.map (fun c => "--db_dir=" ++ c)
  ++ tailArgs fl

/-- The bind loop over `--db_dir` entries: each gets mount name `db_<i>`. -/
def dbBinds (fs : FS) (cwd : String) (dbs : List (Nat × String)) :
    FS × List String × List String :=
  dbs.foldl
    (fun acc pr =>
      let r := createBind acc.1 cwd ("db_" ++ toString pr.1) pr.2 true
      (r.fs, acc.2.1 ++ [r.spec], acc.2.2 ++ [r.cpath]))
    (fs, [], [])

/-- The AlphaFold 3 launcher from module load up to the container
invocation: the module-level image check (env variable or hardcoded path;
there is no `--sif_path` flag), `main`'s required-flag checks, bind
resolution in source order (input dir or json file, output, models, each
db dir, tmp), command assembly.  `_create_bind` never fails, so missing
input paths do not stop this launcher. -/
def run (envSif : Option String) (cwd tmpDir : String) (fl : Flags) (fs : FS) :
    Except Nat Invocation × St :=
  let st0 : St := ⟨fs, []⟩
  let sif := match envSif with
    | some s => s
    | none => HARD_SIF
  if !fs.present sif then (.error 1, st0)
  else if !truthyOpt fl.json_path && !truthyOpt fl.input_dir then (.error 1, st0)
  else if !truthyOpt fl.model_dir then (.error 1, st0)
  else if !truthyList fl.db_dir then (.error 1, st0)
  else
    let inStep : FS × List String × InputSel :=
      if truthyOpt fl.input_dir then
        let r := createBind fs cwd "input_dir" (fl.input_dir.getD "") true
        (r.fs, [r.spec], .dirSel r.cpath)
      else if truthyOpt fl.json_path then
        let r := createBind fs cwd "json_input" (fl.json_path.getD "") false
        (r.fs, [r.spec], .jsonSel r.cpath)
      else (fs, [], .noSel)
    let r2 := createBind inStep.1 cwd "output" fl.output_dir true
    let r3 := createBind r2.fs cwd "models" (fl.model_dir.getD "") true
    let db := dbBinds r3.fs cwd (fl.db_dir.getD []).enum
    let r5 := createBind db.1 cwd "tmp" tmpDir true
    let cmd := ["python", "/app/run_alphafold.py"]
      ++ commandArgs inStep.2.2 r2.cpath r3.cpath db.2.2 fl
    (.ok ⟨cmd, fl.use_gpu⟩,
     ⟨r5.fs, inStep.2.1 ++ [r2.spec, r3.spec] ++ db.2.1 ++ [r5.spec]⟩)

end af3

/-! ### Concrete fixtures used by witnesses and counterexamples -/

/-- An empty host filesystem: nothing exists. -/
def emptyFS : FS := ⟨fun _ => false, fun _ => false, fun _ => false, fun _ => false⟩

/-- A host filesystem where only the image file `/sif` exists. -/
def af3DemoFS : FS :=
  ⟨fun q => q = "/sif", fun _ => false, fun _ => false, fun _ => false⟩

/-- AlphaFold 3 flags pointing at a model directory and database directory
that do not exist on the host. -/
def af3DemoFlags : af3.Flags :=
  ⟨some "/in.json", none, "/out", false, some "/missing_models",
   some ["/missing_db"], true, "all", true, true, 8, 8, "2021-09-30",
   10000, 10, 5, none, "triton", false⟩

/-- A host filesystem where only the path `/link` exists. -/
def linkFS : FS :=
  ⟨fun q => q = "/link", fun _ => false, fun _ => false, fun _ => false⟩

/-- A symlink table for `linkFS`: `/link` is a symbolic link to `/real`
(symlink expansion, as performed by `os.path.realpath`, would rewrite
`/link` to `/real`; `os.path.abspath` does not consult this table). -/
def demoLinks : String → Option String :=
  fun q => if q = "/link" then some "/real" else none

/-- A host filesystem where the directory `/data` exists but the file
`/data/protein.fasta` does not. -/
def parentFS : FS :=
  ⟨fun q => q = "/data", fun _ => false, fun _ => false, fun _ => false⟩

/-- A host filesystem where `/out` exists and has a non-empty listing. -/
def busyFS : FS :=
  ⟨fun q => q = "/out", fun _ => false, fun _ => false, fun q => q = "/out"⟩

/-- Chai flags at their defaults except for a non-default MSA server URL,
with the MSA server left disabled. -/
def chaiMsaDemo : chai.Flags :=
  ⟨none, none, "chailab_output", false, true, "all", true, false,
   "http://altserver", none, none, false, none, 0, 3, 200, 5, 1, none,
   none, true⟩

/-- Whether a launcher model reached the container invocation. -/
def launchOk : Except Nat Invocation → Bool
  | .ok _ => true
  | .error _ => false

/-! ### Helper lemmas

Disequality of emitted tokens: two appended strings differ whenever their
(concrete) prefixes already differ on the first `min` of their lengths,
and a token containing no `'='` never equals an appended `--name=value`
token. -/

theorem str_take_min_ne {a b : String}
    (h : ¬ a.data.take (min a.data.length b.data.length) =
      b.data.take (min a.data.length b.data.length)) (s t : String) :
    ¬ a ++ s = b ++ t := by
  intro heq
  apply h
  have hd : a.data ++ s.data = b.data ++ t.data := by
    have := congrArg String.data heq
    simpa [String.data_append] using this
  have h1 : (a.data ++ s.data).take (min a.data.length b.data.length) =
      a.data.take (min a.data.length b.data.length) :=
    List.take_append_of_le_length (Nat.min_le_left _ _)
  have h2 : (b.data ++ t.data).take (min a.data.length b.data.length) =
      b.data.take (min a.data.length b.data.length) :=
    List.take_append_of_le_length (Nat.min_le_right _ _)
  rw [← h1, hd, h2]

theorem str_take_min_ne_left {a b : String}
    (h : ¬ a.data.take (min a.data.length b.data.length) =
      b.data.take (min a.data.length b.data.length)) (s : String) :
    ¬ a ++ s = b := by
  have := str_take_min_ne h s ""
  rwa [String.append_empty] at this

theorem str_take_min_ne_right {a b : String}
    (h : ¬ a.data.take (min a.data.length b.data.length) =
      b.data.take (min a.data.length b.data.length)) (t : String) :
    ¬ a = b ++ t := by
  have := str_take_min_ne h "" t
  rwa [String.append_empty] at this

theorem str_app_left_cancel {a s t : String} (h : a ++ s = a ++ t) : s = t := by
  have hd : a.data ++ s.data = a.data ++ t.data := by
    have := congrArg String.data h
    simpa [String.data_append] using this
  exact congrArg String.mk (List.append_cancel_left hd)

theorem mem_data_append {c : Char} {a s : String} (h : c ∈ a.data) :
    c ∈ (a ++ s).data := by
  rw [String.data_append]
  exact List.mem_append_left _ h

theorem eq_free_ne_app {t a : String} (hc : '=' ∈ a.data) (hn : ¬ '=' ∈ t.data)
    (s : String) : ¬ a ++ s = t := by
  intro h
  exact hn (h ▸ mem_data_append hc)

theorem eq_free_ne_app' {t a : String} (hc : '=' ∈ a.data) (hn : ¬ '=' ∈ t.data)
    (s : String) : ¬ t = a ++ s := fun h => eq_free_ne_app hc hn s h.symm

theorem ne_ite {c : Prop} [Decidable c] {x a b : String} (ha : ¬ x = a)
    (hb : ¬ x = b) : ¬ x = if c then a else b := by
  by_cases h : c <;> simp [h, ha, hb]

/-- Membership in an `emitIf` fragment. -/
theorem mem_emitIf {c : Prop} [Decidable c] {tok t : String} :
    t ∈ emitIf c tok ↔ c ∧ t = tok := by
  by_cases h : c <;> simp [emitIf, h]

/-- Membership in an `optEmit` fragment. -/
theorem mem_optEmit {α : Type} {o : Option α} {f : α → List String} {t : String} :
    t ∈ optEmit o f ↔ ∃ a, o = some a ∧ t ∈ f a := by
  cases o <;> simp [optEmit]

/-- Membership in a conditional block. -/
theorem mem_ite_nil {c : Prop} [Decidable c] {l : List String} {t : String} :
    t ∈ (if c then l else []) ↔ c ∧ t ∈ l := by
  by_cases h : c <;> simp [h]

/-- The float tolerance used by the Boltz launcher is nonnegative. -/
theorem eps_nonneg : (0 : ℚ) ≤ 1e-6 := by norm_num

/-- `os.makedirs(..., exist_ok=True)` is idempotent on the modelled
filesystem state. -/
theorem mkdirs_idem (fs : FS) (p : String) : mkdirs (mkdirs fs p) p = mkdirs fs p := by
  cases fs
  simp only [mkdirs, FS.mk.injEq]
  refine ⟨funext fun q => ?_, funext fun q => ?_, trivial, trivial⟩ <;>
    rw [Bool.or_assoc, Bool.or_self]

/-- `makedirs p` makes `p` itself exist. -/
theorem mkdirs_present_self (fs : FS) (p : String) :
    (mkdirs fs p).present p = true := by
  simp [mkdirs, ancOrSelf]

/-! ### Path-shape lemmas for `abspath` -/

theorem isAbs_append {a : String} (h : isAbs a = true) (x : String) :
    isAbs (a ++ x) = true := by
  rcases a with ⟨l⟩
  simp only [isAbs, String.data_append, decide_eq_true_eq] at *
  cases l with
  | nil => simp at h
  | cons c cs => simpa using h

theorem isAbs_pjoin {a : String} (h : isAbs a = true) (b : String) :
    isAbs (pjoin a b) = true := by
  unfold pjoin
  split
  · assumption
  · split
    · exact isAbs_append h b
    · exact isAbs_append (isAbs_append h "/") b

theorem isAbs_normpath {p : String} (h : isAbs p = true) :
    isAbs (normpath p) = true := by
  have hp : p.data.take 1 = ['/'] := by simpa [isAbs] using h
  have hne : ¬ p = "" := by
    rintro rfl
    simp at hp
  have hns : 1 ≤ initialSlashes p := by
    unfold initialSlashes
    rw [if_pos hp]
    split <;> omega
  obtain ⟨m, hm⟩ : ∃ m, initialSlashes p = m + 1 :=
    ⟨initialSlashes p - 1, by omega⟩
  unfold normpath
  rw [if_neg hne]
  simp only [hm, List.replicate_succ]
  simp [isAbs]

theorem isAbs_abspath {cwd : String} (h : isAbs cwd = true) (p : String) :
    isAbs (abspath cwd p) = true := by
  unfold abspath
  split
  · exact isAbs_normpath ‹_›
  · exact isAbs_normpath (isAbs_pjoin h p)

/-! ### Claim theorems -/

/-! ### Branch characterizations of the three `_create_bind` functions -/

theorem chai_createBind_writable (fs : FS) (cwd name p : String) (d : Bool)
    (hw : chai.writableMount name = true) :
    chai.createBind fs cwd name p d =
      .ok ⟨(if d then abspath cwd p else dirname (abspath cwd p)) ++ ":"
            ++ pjoin chai.ROOT name,
           (if d then pjoin chai.ROOT name
            else pjoin (pjoin chai.ROOT name) (basename (abspath cwd p))),
           mkdirs fs (if d then abspath cwd p else dirname (abspath cwd p))⟩ := by
  simp [chai.createBind, hw]

theorem chai_createBind_input (fs : FS) (cwd name p : String) (d : Bool)
    (hw : chai.writableMount name = false)
    (hp : fs.present (if d then abspath cwd p else dirname (abspath cwd p)) = true) :
    chai.createBind fs cwd name p d =
      .ok ⟨(if d then abspath cwd p else dirname (abspath cwd p)) ++ ":"
            ++ pjoin chai.ROOT name,
           (if d then pjoin chai.ROOT name
            else pjoin (pjoin chai.ROOT name) (basename (abspath cwd p))),
           fs⟩ := by
  simp [chai.createBind, hw, hp]

theorem chai_createBind_missing (fs : FS) (cwd name p : String) (d : Bool)
    (hw : chai.writableMount name = false)
    (hp : fs.present (if d then abspath cwd p else dirname (abspath cwd p)) = false) :
    chai.createBind fs cwd name p d = .error 1 := by
  simp [chai.createBind, hw, hp]

theorem boltz_createBind_writable (fs : FS) (cwd home : String)
    (uh : String → Option String) (name p : String) (d ro : Bool)
    (hw : boltz.writableMount name = true) :
    boltz.createBind fs cwd home uh name p d ro =
      .ok ⟨(if d then abspath cwd (expanduser home uh p)
            else dirname (abspath cwd (expanduser home uh p))) ++ ":"
            ++ pjoin boltz.ROOT name ++ (if ro then ":ro" else ""),
           (if d then pjoin boltz.ROOT name
            else pjoin (pjoin boltz.ROOT name)
              (basename (abspath cwd (expanduser home uh p)))),
           mkdirs fs (abspath cwd (expanduser home uh p))⟩ := by
  simp [boltz.createBind, hw]

theorem boltz_createBind_input (fs : FS) (cwd home : String)
    (uh : String → Option String) (name p : String) (d ro : Bool)
    (hw : boltz.writableMount name = false)
    (hp : fs.present (if d then abspath cwd (expanduser home uh p)
      else dirname (abspath cwd (expanduser home uh p))) = true) :
    boltz.createBind fs cwd home uh name p d ro =
      .ok ⟨(if d then abspath cwd (expanduser home uh p)
            else dirname (abspath cwd (expanduser home uh p))) ++ ":"
            ++ pjoin boltz.ROOT name ++ (if ro then ":ro" else ""),
           (if d then pjoin boltz.ROOT name
            else pjoin (pjoin boltz.ROOT name)
              (basename (abspath cwd (expanduser home uh p)))),
           fs⟩ := by
  simp [boltz.createBind, hw, hp]

theorem boltz_createBind_missing (fs : FS) (cwd home : String)
    (uh : String → Option String) (name p : String) (d ro : Bool)
    (hw : boltz.writableMount name = false)
    (hp : fs.present (if d then abspath cwd (expanduser home uh p)
      else dirname (abspath cwd (expanduser home uh p))) = false) :
    boltz.createBind fs cwd home uh name p d ro = .error 1 := by
  simp [boltz.createBind, hw, hp]

theorem af3_createBind_writable (fs : FS) (cwd name p : String) (d : Bool)
    (hw : af3.writableMount name = true) :
    af3.createBind fs cwd name p d =
      ⟨(if d then abspath cwd p else dirname (abspath cwd p)) ++ ":"
        ++ pjoin af3.ROOT name,
       (if d then pjoin af3.ROOT name
        else pjoin (pjoin af3.ROOT name) (basename (abspath cwd p))),
       mkdirs fs (if d then abspath cwd p else dirname (abspath cwd p))⟩ := by
  simp [af3.createBind, hw]

theorem af3_createBind_other (fs : FS) (cwd name p : String) (d : Bool)
    (hw : af3.writableMount name = false) :
    af3.createBind fs cwd name p d =
      ⟨(if d then abspath cwd p else dirname (abspath cwd p)) ++ ":"
        ++ pjoin af3.ROOT name,
       (if d then pjoin af3.ROOT name
        else pjoin (pjoin af3.ROOT name) (basename (abspath cwd p))),
       fs⟩ := by
  simp [af3.createBind, hw]

/-! ### Claim theorems -/

/-- C5: For every host path and mount-point name, every launcher's
`_create_bind` returns a container path equal to the fixed mount root
joined with the mount name; for a file bind (`is_dir = false`) the bind
source is the normalized file's parent directory, the bind target is
still the mount base, and the returned container path additionally
appends the file's base name. -/
theorem createBind_paths :
    (∀ (fs : FS) (cwd name p : String) (d : Bool) (r : BindRes),
      chai.createBind fs cwd name p d = .ok r →
        r.cpath = (if d then pjoin chai.ROOT name
                   else pjoin (pjoin chai.ROOT name) (basename (abspath cwd p))) ∧
        r.spec = (if d then abspath cwd p else dirname (abspath cwd p))
          ++ ":" ++ pjoin chai.ROOT name) ∧
    (∀ (fs : FS) (cwd home : String) (uh : String → Option String)
        (name p : String) (d ro : Bool) (r : BindRes),
      boltz.createBind fs cwd home uh name p d ro = .ok r →
        r.cpath = (if d then pjoin boltz.ROOT name
                   else pjoin (pjoin boltz.ROOT name)
                     (basename (abspath cwd (expanduser home uh p)))) ∧
        r.spec = (if d then abspath cwd (expanduser home uh p)
                  else dirname (abspath cwd (expanduser home uh p)))
          ++ ":" ++ pjoin boltz.ROOT name ++ (if ro then ":ro" else "")) ∧
    (∀ (fs : FS) (cwd name p : String) (d : Bool),
      (af3.createBind fs cwd name p d).cpath =
        (if d then pjoin af3.ROOT name
         else pjoin (pjoin af3.ROOT name) (basename (abspath cwd p))) ∧
      (af3.createBind fs cwd name p d).spec =
        (if d then abspath cwd p else dirname (abspath cwd p))
          ++ ":" ++ pjoin af3.ROOT name) := by
  refine ⟨?_, ?_, ?_⟩
  · intro fs cwd name p d r h
    by_cases hw : chai.writableMount name = true
    · rw [chai_createBind_writable fs cwd name p d hw] at h
      cases h
      exact ⟨rfl, rfl⟩
    · simp only [Bool.not_eq_true] at hw
      by_cases hp : fs.present (if d then abspath cwd p
          else dirname (abspath cwd p)) = true
      · rw [chai_createBind_input fs cwd name p d hw hp] at h
        cases h
        exact ⟨rfl, rfl⟩
      · simp only [Bool.not_eq_true] at hp
        rw [chai_createBind_missing fs cwd name p d hw hp] at h
        exact Except.noConfusion h
  · intro fs cwd home uh name p d ro r h
    by_cases hw : boltz.writableMount name = true
    · rw [boltz_createBind_writable fs cwd home uh name p d ro hw] at h
      cases h
      exact ⟨rfl, rfl⟩
    · simp only [Bool.not_eq_true] at hw
      by_cases hp : fs.present (if d then abspath cwd (expanduser home uh p)
          else dirname (abspath cwd (expanduser home uh p))) = true
      · rw [boltz_createBind_input fs cwd home uh name p d ro hw hp] at h
        cases h
        exact ⟨rfl, rfl⟩
      · simp only [Bool.not_eq_true] at hp
        rw [boltz_createBind_missing fs cwd home uh name p d ro hw hp] at h
        exact Except.noConfusion h
  · intro fs cwd name p d
    by_cases hw : af3.writableMount name = true
    · rw [af3_createBind_writable fs cwd name p d hw]
      exact ⟨rfl, rfl⟩
    · simp only [Bool.not_eq_true] at hw
      rw [af3_createBind_other fs cwd name p d hw]
      exact ⟨rfl, rfl⟩

/-- Witness for C5: binding the existing file `/data/protein.fasta` under
mount name `fasta` in the Chai launcher mounts `/data` at `/mnt/fasta` and
returns container path `/mnt/fasta/protein.fasta`. -/
theorem createBind_paths_witness :
    (⟨"/data:/mnt/fasta", "/mnt/fasta/protein.fasta", parentFS⟩ : BindRes).cpath =
      (if false then pjoin chai.ROOT "fasta"
       else pjoin (pjoin chai.ROOT "fasta")
         (basename (abspath "/" "/data/protein.fasta"))) ∧
    (⟨"/data:/mnt/fasta", "/mnt/fasta/protein.fasta", parentFS⟩ : BindRes).spec =
      (if false then abspath "/" "/data/protein.fasta"
       else dirname (abspath "/" "/data/protein.fasta"))
        ++ ":" ++ pjoin chai.ROOT "fasta" :=
  createBind_paths.1 parentFS "/" "fasta" "/data/protein.fasta" false
    ⟨"/data:/mnt/fasta", "/mnt/fasta/protein.fasta", parentFS⟩ (by rfl)

/-- C10: For a file bind (`is_dir = false`) with a non-writable mount
name, `_create_bind` in the Chai and Boltz launchers checks existence of
the file's parent directory only: when the parent exists but the file
itself does not, bind resolution succeeds and returns a container path
that names the missing file. -/
theorem file_bind_checks_parent_only :
    (∀ (fs : FS) (cwd name p : String),
      chai.writableMount name = false →
      fs.present (dirname (abspath cwd p)) = true →
      fs.present (abspath cwd p) = false →
      chai.createBind fs cwd name p false =
        .ok ⟨dirname (abspath cwd p) ++ ":" ++ pjoin chai.ROOT name,
             pjoin (pjoin chai.ROOT name) (basename (abspath cwd p)), fs⟩) ∧
    (∀ (fs : FS) (cwd home : String) (uh : String → Option String)
        (name p : String) (ro : Bool),
      boltz.writableMount name = false →
      fs.present (dirname (abspath cwd (expanduser home uh p))) = true →
      fs.present (abspath cwd (expanduser home uh p)) = false →
      boltz.createBind fs cwd home uh name p false ro =
        .ok ⟨dirname (abspath cwd (expanduser home uh p)) ++ ":"
              ++ pjoin boltz.ROOT name ++ (if ro then ":ro" else ""),
             pjoin (pjoin boltz.ROOT name)
               (basename (abspath cwd (expanduser home uh p))), fs⟩) :=
  ⟨fun fs cwd name p hw hpar _ => chai_createBind_input fs cwd name p false hw hpar,
   fun fs cwd home uh name p ro hw hpar _ =>
     boltz_createBind_input fs cwd home uh name p false ro hw hpar⟩

/-- Witness for C10: `/data` exists, `/data/protein.fasta` does not, and
the Chai `fasta` bind still succeeds, naming the missing file in the
container. -/
theorem file_bind_checks_parent_only_witness :
    chai.createBind parentFS "/" "fasta" "/data/protein.fasta" false =
      .ok ⟨dirname (abspath "/" "/data/protein.fasta") ++ ":" ++ pjoin chai.ROOT "fasta",
           pjoin (pjoin chai.ROOT "fasta") (basename (abspath "/" "/data/protein.fasta")),
           parentFS⟩ :=
  file_bind_checks_parent_only.1 parentFS "/" "fasta" "/data/protein.fasta"
    (by decide) (by decide) (by decide)

/-- C8: `_create_bind` is idempotent: re-running it with the same
arguments on the filesystem produced by a successful call yields the
identical bind specification and container path and does not error on the
pre-existing directory. -/
theorem createBind_idempotent :
    (∀ (fs : FS) (cwd name p : String) (d : Bool) (r : BindRes),
      chai.createBind fs cwd name p d = .ok r →
      chai.createBind r.fs cwd name p d = .ok r) ∧
    (∀ (fs : FS) (cwd home : String) (uh : String → Option String)
        (name p : String) (d ro : Bool) (r : BindRes),
      boltz.createBind fs cwd home uh name p d ro = .ok r →
      boltz.createBind r.fs cwd home uh name p d ro = .ok r) ∧
    (∀ (fs : FS) (cwd name p : String) (d : Bool),
      af3.createBind (af3.createBind fs cwd name p d).fs cwd name p d =
        af3.createBind fs cwd name p d) := by
  refine ⟨?_, ?_, ?_⟩
  · intro fs cwd name p d r h
    by_cases hw : chai.writableMount name = true
    · rw [chai_createBind_writable fs cwd name p d hw] at h
      cases h
      rw [chai_createBind_writable _ cwd name p d hw, mkdirs_idem]
    · simp only [Bool.not_eq_true] at hw
      by_cases hp : fs.present (if d then abspath cwd p
          else dirname (abspath cwd p)) = true
      · rw [chai_createBind_input fs cwd name p d hw hp] at h
        cases h
        exact chai_createBind_input fs cwd name p d hw hp
      · simp only [Bool.not_eq_true] at hp
        rw [chai_createBind_missing fs cwd name p d hw hp] at h
        exact Except.noConfusion h
  · intro fs cwd home uh name p d ro r h
    by_cases hw : boltz.writableMount name = true
    · rw [boltz_createBind_writable fs cwd home uh name p d ro hw] at h
      cases h
      rw [boltz_createBind_writable _ cwd home uh name p d ro hw, mkdirs_idem]
    · simp only [Bool.not_eq_true] at hw
      by_cases hp : fs.present (if d then abspath cwd (expanduser home uh p)
          else dirname (abspath cwd (expanduser home uh p))) = true
      · rw [boltz_createBind_input fs cwd home uh name p d ro hw hp] at h
        cases h
        exact boltz_createBind_input fs cwd home uh name p d ro hw hp
      · simp only [Bool.not_eq_true] at hp
        rw [boltz_createBind_missing fs cwd home uh name p d ro hw hp] at h
        exact Except.noConfusion h
  · intro fs cwd name p d
    by_cases hw : af3.writableMount name = true
    · rw [af3_createBind_writable fs cwd name p d hw,
        af3_createBind_writable _ cwd name p d hw, mkdirs_idem]
    · simp only [Bool.not_eq_true] at hw
      rw [af3_createBind_other fs cwd name p d hw,
        af3_createBind_other fs cwd name p d hw]

/-- Witness for C8: after the Chai `output` bind creates `/o`, running the
same bind again returns the identical result. -/
theorem createBind_idempotent_witness :
    chai.createBind (mkdirs emptyFS "/o") "/" "output" "/o" true =
      .ok ⟨"/o:/mnt/output", "/mnt/output", mkdirs emptyFS "/o"⟩ :=
  createBind_idempotent.1 emptyFS "/" "output" "/o" true
    ⟨"/o:/mnt/output", "/mnt/output", mkdirs emptyFS "/o"⟩ (by rfl)

/-- C9: The Chai launcher's output-directory selection: when the requested
directory exists with a non-empty listing and `--force_output_dir` is
false, the run uses the `run_<timestamp>` subdirectory; when the flag is
set or the directory is absent or empty, the requested directory is used
exactly. -/
theorem chai_output_dir_selection :
    ∀ (fs : FS) (dir ts : String) (force : Bool),
      (fs.present dir = true → fs.listNonempty dir = true → force = false →
        chai.actualOutputDir fs dir ts force = pjoin dir ("run_" ++ ts)) ∧
      (force = true ∨ fs.present dir = false ∨ fs.listNonempty dir = false →
        chai.actualOutputDir fs dir ts force = dir) := by
  intro fs dir ts force
  constructor
  · intro h1 h2 h3
    simp [chai.actualOutputDir, h1, h2, h3]
  · rintro (h | h | h) <;> simp [chai.actualOutputDir, h]

/-- Witness for C9: with `/out` existing and non-empty, timestamp `TS`
gives `/out/run_TS` when the force flag is off and `/out` itself when it
is on. -/
theorem chai_output_dir_selection_witness :
    chai.actualOutputDir busyFS "/out" "TS" false = pjoin "/out" ("run_" ++ "TS") ∧
    chai.actualOutputDir busyFS "/out" "TS" true = "/out" :=
  ⟨(chai_output_dir_selection busyFS "/out" "TS" false).1 (by decide) (by decide) rfl,
   (chai_output_dir_selection busyFS "/out" "TS" true).2 (Or.inl rfl)⟩

/-- C1 (amended): In the Boltz and Chai launchers, a `_create_bind` call
with a non-writable mount name whose bind source does not exist exits
fatally with code 1 (so the container is never invoked); the AlphaFold 3
launcher's `_create_bind` performs no existence check at all. -/
theorem missing_input_bind_exits :
    (∀ (fs : FS) (cwd name p : String) (d : Bool),
      chai.writableMount name = false →
      fs.present (if d then abspath cwd p else dirname (abspath cwd p)) = false →
      chai.createBind fs cwd name p d = .error 1) ∧
    (∀ (fs : FS) (cwd home : String) (uh : String → Option String)
        (name p : String) (d ro : Bool),
      boltz.writableMount name = false →
      fs.present (if d then abspath cwd (expanduser home uh p)
        else dirname (abspath cwd (expanduser home uh p))) = false →
      boltz.createBind fs cwd home uh name p d ro = .error 1) :=
  ⟨fun fs cwd name p d hw hp => chai_createBind_missing fs cwd name p d hw hp,
   fun fs cwd home uh name p d ro hw hp =>
     boltz_createBind_missing fs cwd home uh name p d ro hw hp⟩

/-- Witness for C1: the Chai `fasta` bind for `/nodir/x.fa` on an empty
filesystem exits with code 1. -/
theorem missing_input_bind_exits_witness :
    chai.createBind emptyFS "/" "fasta" "/nodir/x.fa" false = .error 1 :=
  missing_input_bind_exits.1 emptyFS "/" "fasta" "/nodir/x.fa" false
    (by decide) (by decide)

/-- Counterexample for C1 as stated: in the AlphaFold 3 launcher a
non-writable bind source (`--model_dir=/missing_models`) that does not
exist on the host does not stop the launcher: the run reaches the
container invocation and the bind list still maps the missing directory
to `/mnt/models`. -/
theorem af3_missing_model_dir_reaches_invocation :
    af3DemoFS.present "/missing_models" = false ∧
    launchOk (af3.run (some "/sif") "/" "/tmp" af3DemoFlags af3DemoFS).1 = true ∧
    "/missing_models:/mnt/models" ∈
      (af3.run (some "/sif") "/" "/tmp" af3DemoFlags af3DemoFS).2.binds := by
  refine ⟨by decide, by decide, by decide⟩

/-- Counterexample for C6 as stated: `_create_bind` normalizes with
`os.path.abspath`, which performs no symlink expansion: with working
directory `/` where the existing path `/link` is a symbolic link to
`/real`, the Chai resolver uses `/link` itself (not its target) as the
bind source. -/
theorem createBind_source_keeps_symlink :
    demoLinks "/link" = some "/real" ∧
    ¬ ("/link" = "/real") ∧
    chai.createBind linkFS "/" "msa_dir" "link" true =
      .ok ⟨"/link:/mnt/msa_dir", "/mnt/msa_dir", linkFS⟩ := by
  refine ⟨by decide, by decide, ?_⟩
  exact chai_createBind_input linkFS "/" "msa_dir" "link" true (by decide) (by decide)

/-- C6 (amended): every launcher's `_create_bind` normalizes the host
path to an absolute, syntactically normalized form — `abspath` (composed
with `expanduser` in the Boltz launcher) — before computing the bind
source and container path, for directory binds and file binds alike: the
bind source is the normalized path (directory bind) or its parent (file
bind), the file-bind container path appends the normalized path's base
name, and the normalized path is absolute whenever the working directory
is.  Symbolic links are not expanded. -/
theorem createBind_normalization_absolute :
    (∀ (fs : FS) (cwd name p : String) (r : BindRes),
      chai.createBind fs cwd name p true = .ok r →
        r.spec = abspath cwd p ++ ":" ++ pjoin chai.ROOT name ∧
        (isAbs cwd = true → isAbs (abspath cwd p) = true)) ∧
    (∀ (fs : FS) (cwd name p : String) (r : BindRes),
      chai.createBind fs cwd name p false = .ok r →
        r.spec = dirname (abspath cwd p) ++ ":" ++ pjoin chai.ROOT name ∧
        r.cpath = pjoin (pjoin chai.ROOT name) (basename (abspath cwd p)) ∧
        (isAbs cwd = true → isAbs (abspath cwd p) = true)) ∧
    (∀ (fs : FS) (cwd home : String) (uh : String → Option String)
        (name p : String) (ro : Bool) (r : BindRes),
      boltz.createBind fs cwd home uh name p true ro = .ok r →
        r.spec = abspath cwd (expanduser home uh p) ++ ":" ++ pjoin boltz.ROOT name
          ++ (if ro then ":ro" else "") ∧
        (isAbs cwd = true → isAbs (abspath cwd (expanduser home uh p)) = true)) ∧
    (∀ (fs : FS) (cwd home : String) (uh : String → Option String)
        (name p : String) (ro : Bool) (r : BindRes),
      boltz.createBind fs cwd home uh name p false ro = .ok r →
        r.spec = dirname (abspath cwd (expanduser home uh p)) ++ ":"
          ++ pjoin boltz.ROOT name ++ (if ro then ":ro" else "") ∧
        r.cpath = pjoin (pjoin boltz.ROOT name)
          (basename (abspath cwd (expanduser home uh p))) ∧
        (isAbs cwd = true → isAbs (abspath cwd (expanduser home uh p)) = true)) ∧
    (∀ (fs : FS) (cwd name p : String),
      (af3.createBind fs cwd name p true).spec =
        abspath cwd p ++ ":" ++ pjoin af3.ROOT name ∧
      (isAbs cwd = true → isAbs (abspath cwd p) = true)) ∧
    (∀ (fs : FS) (cwd name p : String),
      (af3.createBind fs cwd name p false).spec =
        dirname (abspath cwd p) ++ ":" ++ pjoin af3.ROOT name ∧
      (af3.createBind fs cwd name p false).cpath =
        pjoin (pjoin af3.ROOT name) (basename (abspath cwd p)) ∧
      (isAbs cwd = true → isAbs (abspath cwd p) = true)) := by
  refine ⟨?_, ?_, ?_, ?_, ?_, ?_⟩
  · intro fs cwd name p r h
    refine ⟨?_, fun hc => isAbs_abspath hc p⟩
    by_cases hw : chai.writableMount name = true
    · rw [chai_createBind_writable fs cwd name p true hw] at h
      cases h
      rfl
    · simp only [Bool.not_eq_true] at hw
      by_cases hp : fs.present (if true then abspath cwd p
          else dirname (abspath cwd p)) = true
      · rw [chai_createBind_input fs cwd name p true hw hp] at h
        cases h
        rfl
      · simp only [Bool.not_eq_true] at hp
        rw [chai_createBind_missing fs cwd name p true hw hp] at h
        exact Except.noConfusion h
  · intro fs cwd name p r h
    refine ⟨?_, ?_, fun hc => isAbs_abspath hc p⟩
    all_goals
      by_cases hw : chai.writableMount name = true
      · rw [chai_createBind_writable fs cwd name p false hw] at h
        cases h
        rfl
      · simp only [Bool.not_eq_true] at hw
        by_cases hp : fs.present (if false then abspath cwd p
            else dirname (abspath cwd p)) = true
        · rw [chai_createBind_input fs cwd name p false hw hp] at h
          cases h
          rfl
        · simp only [Bool.not_eq_true] at hp
          rw [chai_createBind_missing fs cwd name p false hw hp] at h
          exact Except.noConfusion h
  · intro fs cwd home uh name p ro r h
    refine ⟨?_, fun hc => isAbs_abspath hc (expanduser home uh p)⟩
    by_cases hw : boltz.writableMount name = true
    · rw [boltz_createBind_writable fs cwd home uh name p true ro hw] at h
      cases h
      rfl
    · simp only [Bool.not_eq_true] at hw
      by_cases hp : fs.present (if true then abspath cwd (expanduser home uh p)
          else dirname (abspath cwd (expanduser home uh p))) = true
      · rw [boltz_createBind_input fs cwd home uh name p true ro hw hp] at h
        cases h
        rfl
      · simp only [Bool.not_eq_true] at hp
        rw [boltz_createBind_missing fs cwd home uh name p true ro hw hp] at h
        exact Except.noConfusion h
  · intro fs cwd home uh name p ro r h
    refine ⟨?_, ?_, fun hc => isAbs_abspath hc (expanduser home uh p)⟩
    all_goals
      by_cases hw : boltz.writableMount name = true
      · rw [boltz_createBind_writable fs cwd home uh name p false ro hw] at h
        cases h
        rfl
      · simp only [Bool.not_eq_true] at hw
        by_cases hp : fs.present (if false then abspath cwd (expanduser home uh p)
            else dirname (abspath cwd (expanduser home uh p))) = true
        · rw [boltz_createBind_input fs cwd home uh name p false ro hw hp] at h
          cases h
          rfl
        · simp only [Bool.not_eq_true] at hp
          rw [boltz_createBind_missing fs cwd home uh name p false ro hw hp] at h
          exact Except.noConfusion h
  · intro fs cwd name p
    refine ⟨?_, fun hc => isAbs_abspath hc p⟩
    by_cases hw : af3.writableMount name = true
    · rw [af3_createBind_writable fs cwd name p true hw]
      rfl
    · simp only [Bool.not_eq_true] at hw
      rw [af3_createBind_other fs cwd name p true hw]
      rfl
  · intro fs cwd name p
    refine ⟨?_, ?_, fun hc => isAbs_abspath hc p⟩
    all_goals
      by_cases hw : af3.writableMount name = true
      · rw [af3_createBind_writable fs cwd name p false hw]
        rfl
      · simp only [Bool.not_eq_true] at hw
        rw [af3_createBind_other fs cwd name p false hw]
        rfl

/-- Witness for C6: a Chai directory bind (`msa_dir` of relative `link`
from `/`) and a Chai file bind (`fasta` of `/data/protein.fasta`): the
bind sources are `abspath "/" "link"` and the parent of the normalized
file path, the file bind's container path appends the base name, and both
normalized paths are absolute. -/
theorem createBind_normalization_absolute_witness :
    ((⟨"/link:/mnt/msa_dir", "/mnt/msa_dir", linkFS⟩ : BindRes).spec =
       abspath "/" "link" ++ ":" ++ pjoin chai.ROOT "msa_dir" ∧
     (isAbs "/" = true → isAbs (abspath "/" "link") = true)) ∧
    ((⟨"/data:/mnt/fasta", "/mnt/fasta/protein.fasta", parentFS⟩ : BindRes).spec =
       dirname (abspath "/" "/data/protein.fasta") ++ ":" ++ pjoin chai.ROOT "fasta" ∧
     (⟨"/data:/mnt/fasta", "/mnt/fasta/protein.fasta", parentFS⟩ : BindRes).cpath =
       pjoin (pjoin chai.ROOT "fasta") (basename (abspath "/" "/data/protein.fasta")) ∧
     (isAbs "/" = true → isAbs (abspath "/" "/data/protein.fasta") = true)) :=
  ⟨createBind_normalization_absolute.1 linkFS "/" "msa_dir" "link"
     ⟨"/link:/mnt/msa_dir", "/mnt/msa_dir", linkFS⟩ (by rfl),
   createBind_normalization_absolute.2.1 parentFS "/" "fasta" "/data/protein.fasta"
     ⟨"/data:/mnt/fasta", "/mnt/fasta/protein.fasta", parentFS⟩ (by rfl)⟩

/-- C7: When the image-path flag is unset, the image environment variable
is unset, and the hardcoded fallback image path does not exist, every
launcher exits with code 1 before any bind resolution occurs (no bind is
accumulated and the filesystem is untouched). -/
theorem image_missing_exits_before_binds :
    (∀ (cwd tmpDir ts : String) (fl : chai.Flags) (fs : FS),
      fl.sif_path = none →
      fs.present chai.HARD_SIF = false →
      chai.run none cwd tmpDir ts fl fs = (.error 1, ⟨fs, []⟩)) ∧
    (∀ (cwd home : String) (uh : String → Option String) (tmpDir : String)
        (fl : boltz.Flags) (fs : FS),
      fl.sif_path = none →
      fs.present boltz.HARD_SIF = false →
      boltz.run none cwd home uh tmpDir fl fs = (.error 1, ⟨fs, []⟩)) ∧
    (∀ (cwd tmpDir : String) (fl : af3.Flags) (fs : FS),
      fs.present af3.HARD_SIF = false →
      af3.run none cwd tmpDir fl fs = (.error 1, ⟨fs, []⟩)) := by
  refine ⟨?_, ?_, ?_⟩
  · intro cwd tmpDir ts fl fs hflag hp
    simp [chai.run, chai.sifPath, hflag, hp]
  · intro cwd home uh tmpDir fl fs hflag hp
    simp [boltz.run, boltz.sifPath, hflag, hp]
  · intro cwd tmpDir fl fs hp
    simp [af3.run, hp]

/-- Witness for C7: each launcher, with flags at their recorded defaults
(no image flag) and an empty filesystem, exits with code 1 and an empty
bind list. -/
theorem image_missing_exits_before_binds_witness :
    chai.run none "/" "/tmp" "TS" chai.flagDefaults emptyFS =
      (.error 1, ⟨emptyFS, []⟩) ∧
    boltz.run none "/" "/root" (fun _ => none) "/tmp" boltz.flagDefaults emptyFS =
      (.error 1, ⟨emptyFS, []⟩) ∧
    af3.run none "/" "/tmp" af3.flagDefaults emptyFS = (.error 1, ⟨emptyFS, []⟩) :=
  ⟨image_missing_exits_before_binds.1 "/" "/tmp" "TS" chai.flagDefaults emptyFS rfl rfl,
   image_missing_exits_before_binds.2.1 "/" "/root" (fun _ => none) "/tmp"
     boltz.flagDefaults emptyFS rfl rfl,
   image_missing_exits_before_binds.2.2 "/" "/tmp" af3.flagDefaults emptyFS rfl⟩

/-! ### Membership characterizations of the assembled argument lists -/

theorem mem_chai_commandArgs {t : String} {m c tp : Option String} {fl : chai.Flags} :
    t ∈ chai.commandArgs m c tp fl ↔
      (∃ d, m = some d ∧ t = "--msa-directory=" ++ d) ∨
      (∃ d, c = some d ∧ t = "--constraint-path=" ++ d) ∨
      (∃ d, tp = some d ∧ t = "--template-hits-path=" ++ d) ∨
      (fl.use_esm_embeddings = false ∧ t = "--use-esm-embeddings=false") ∨
      (fl.use_msa_server = true ∧ t = "--use-msa-server") ∨
      (fl.use_templates_server = true ∧ t = "--use-templates-server") ∨
      (fl.low_memory = false ∧ t = "--low-memory=false") ∨
      (¬ fl.msa_server_url = "https://api.colabfold.com" ∧
        t = "--msa-server-url=" ++ fl.msa_server_url) ∨
      (¬ fl.recycle_msa_subsample = 0 ∧
        t = "--recycle-msa-subsample=" ++ toString fl.recycle_msa_subsample) ∨
      (¬ fl.num_trunk_recycles = 3 ∧
        t = "--num-trunk-recycles=" ++ toString fl.num_trunk_recycles) ∨
      (¬ fl.num_diffn_timesteps = 200 ∧
        t = "--num-diffn-timesteps=" ++ toString fl.num_diffn_timesteps) ∨
      (¬ fl.num_diffn_samples = 5 ∧
        t = "--num-diffn-samples=" ++ toString fl.num_diffn_samples) ∨
      (¬ fl.num_trunk_samples = 1 ∧
        t = "--num-trunk-samples=" ++ toString fl.num_trunk_samples) ∨
      (∃ s, fl.seed = some s ∧ t = "--seed=" ++ toString s) ∨
      (∃ d, fl.device = some d ∧ ¬ d = "" ∧ t = "--device=" ++ d) := by
  simp [chai.commandArgs, chai.flagArgs, mem_optEmit, mem_emitIf, mem_ite_nil,
    List.mem_append, and_assoc, or_assoc]

theorem mem_boltz_commandArgs {t cOut cCache : String} {chk : Option String}
    {fl : boltz.Flags} :
    t ∈ boltz.commandArgs cOut cCache chk fl ↔
      t = "--out_dir=" ++ cOut ∨
      t = "--cache=" ++ cCache ∨
      (∃ c, chk = some c ∧ t = "--checkpoint=" ++ c) ∨
      t = (if fl.write_full_pae then "--write_full_pae" else "--no-write-full-pae") ∨
      t = (if fl.write_full_pde then "--write_full_pde" else "--no-write-full-pde") ∨
      t = (if fl.override then "--override" else "--no-override") ∨
      t = (if fl.use_msa_server then "--use_msa_server" else "--no-use-msa-server") ∨
      t = (if fl.enable_potentials then "--potentials" else "--no_potentials") ∨
      (¬ fl.devices = 1 ∧ t = "--devices=" ++ toString fl.devices) ∨
      (¬ fl.accelerator = "gpu" ∧ t = "--accelerator=" ++ fl.accelerator) ∨
      (¬ fl.recycling_steps = 3 ∧ t = "--recycling_steps=" ++ toString fl.recycling_steps) ∨
      (¬ fl.sampling_steps = 200 ∧ t = "--sampling_steps=" ++ toString fl.sampling_steps) ∨
      (¬ fl.diffusion_samples = 1 ∧
        t = "--diffusion_samples=" ++ toString fl.diffusion_samples) ∨
      (|fl.step_scale - 1.638| > 1e-6 ∧ t = "--step_scale=" ++ toString fl.step_scale) ∨
      (¬ fl.output_format = "mmcif" ∧ t = "--output_format=" ++ fl.output_format) ∨
      (¬ fl.num_workers = 2 ∧ t = "--num_workers=" ++ toString fl.num_workers) ∨
      (∃ s, fl.seed = some s ∧ t = "--seed=" ++ toString s) ∨
      (fl.use_msa_server = true ∧ ¬ fl.msa_server_url = "https://api.colabfold.com" ∧
        t = "--msa_server_url=" ++ fl.msa_server_url) ∨
      (fl.use_msa_server = true ∧ ¬ fl.msa_pairing_strategy = "greedy" ∧
        t = "--msa_pairing_strategy=" ++ fl.msa_pairing_strategy) := by
  simp [boltz.commandArgs, boltz.flagArgs, mem_optEmit, mem_emitIf, mem_ite_nil,
    List.mem_append, and_assoc, or_assoc, and_or_left]

theorem mem_af3_inputArgs {t : String} {inp : af3.InputSel} :
    t ∈ af3.inputArgsOf inp ↔
      (∃ cp, inp = .dirSel cp ∧ t = "--input_dir=" ++ cp) ∨
      (∃ cp, inp = .jsonSel cp ∧ t = "--json_path=" ++ cp) := by
  cases inp <;> simp [af3.inputArgsOf]

theorem mem_af3_commandArgs {t cOut cModel : String} {inp : af3.InputSel}
    {dbPaths : List String} {fl : af3.Flags} :
    t ∈ af3.commandArgs inp cOut cModel dbPaths fl ↔
      (∃ cp, inp = .dirSel cp ∧ t = "--input_dir=" ++ cp) ∨
      (∃ cp, inp = .jsonSel cp ∧ t = "--json_path=" ++ cp) ∨
      t = "--output_dir=" ++ cOut ∨
      t = "--model_dir=" ++ cModel ∨
      (∃ c, c ∈ dbPaths ∧ t = "--db_dir=" ++ c) ∨
      t = "--run_data_pipeline=" ++ pyBool fl.run_data_pipeline ∨
      t = "--run_inference=" ++ pyBool fl.run_inference ∨
      t = "--conformer_max_iterations=" ++ toString fl.conformer_max_iterations ∨
      t = "--jackhmmer_n_cpu=" ++ toString fl.jackhmmer_n_cpu ∨
      t = "--nhmmer_n_cpu=" ++ toString fl.nhmmer_n_cpu ∨
      t = "--max_template_date=" ++ fl.max_template_date ∨
      t = "--num_recycles=" ++ toString fl.num_recycles ∨
      t = "--num_diffusion_samples=" ++ toString fl.num_diffusion_samples ∨
      t = "--flash_attention_implementation=" ++ fl.flash_attention_implementation ∨
      t = "--save_embeddings=" ++ pyBool fl.save_embeddings ∨
      t = "--force_output_dir=" ++ pyBool fl.force_output_dir ∨
      t = "--logtostderr" ∨
      (∃ n, fl.num_seeds = some n ∧ t = "--num_seeds=" ++ toString n) := by
  cases inp <;>
    simp [af3.commandArgs, af3.tailArgs, af3.inputArgsOf, mem_optEmit,
      List.mem_append, List.mem_map, and_assoc, or_assoc, eq_comm]

/-- A token containing no `'='` can only arise from the five boolean
token pairs of the Boltz command assembly. -/
theorem boltz_noeq_token_mem {t cOut cCache : String} {chk : Option String}
    {fl : boltz.Flags} (hn : ¬ '=' ∈ t.data) :
    t ∈ boltz.commandArgs cOut cCache chk fl ↔
      t = (if fl.write_full_pae then "--write_full_pae" else "--no-write-full-pae") ∨
      t = (if fl.write_full_pde then "--write_full_pde" else "--no-write-full-pde") ∨
      t = (if fl.override then "--override" else "--no-override") ∨
      t = (if fl.use_msa_server then "--use_msa_server" else "--no-use-msa-server") ∨
      t = (if fl.enable_potentials then "--potentials" else "--no_potentials") := by
  rw [mem_boltz_commandArgs]
  constructor
  · rintro (h | h | ⟨c, hc, h⟩ | h | h | h | h | h | ⟨hc, h⟩ | ⟨hc, h⟩ | ⟨hc, h⟩ |
      ⟨hc, h⟩ | ⟨hc, h⟩ | ⟨hc, h⟩ | ⟨hc, h⟩ | ⟨hc, h⟩ | ⟨s, hc, h⟩ |
      ⟨hu, hc, h⟩ | ⟨hu, hc, h⟩)
    · exact absurd (h.symm ▸ mem_data_append (by decide)) hn
    · exact absurd (h.symm ▸ mem_data_append (by decide)) hn
    · exact absurd (h.symm ▸ mem_data_append (by decide)) hn
    · exact Or.inl h
    · exact Or.inr (Or.inl h)
    · exact Or.inr (Or.inr (Or.inl h))
    · exact Or.inr (Or.inr (Or.inr (Or.inl h)))
    · exact Or.inr (Or.inr (Or.inr (Or.inr h)))
    · exact absurd (h.symm ▸ mem_data_append (by decide)) hn
    · exact absurd (h.symm ▸ mem_data_append (by decide)) hn
    · exact absurd (h.symm ▸ mem_data_append (by decide)) hn
    · exact absurd (h.symm ▸ mem_data_append (by decide)) hn
    · exact absurd (h.symm ▸ mem_data_append (by decide)) hn
    · exact absurd (h.symm ▸ mem_data_append (by decide)) hn
    · exact absurd (h.symm ▸ mem_data_append (by decide)) hn
    · exact absurd (h.symm ▸ mem_data_append (by decide)) hn
    · exact absurd (h.symm ▸ mem_data_append (by decide)) hn
    · exact absurd (h.symm ▸ mem_data_append (by decide)) hn
    · exact absurd (h.symm ▸ mem_data_append (by decide)) hn
  · rintro (h | h | h | h | h)
    · exact Or.inr (Or.inr (Or.inr (Or.inl h)))
    · exact Or.inr (Or.inr (Or.inr (Or.inr (Or.inl h))))
    · exact Or.inr (Or.inr (Or.inr (Or.inr (Or.inr (Or.inl h)))))
    · exact Or.inr (Or.inr (Or.inr (Or.inr (Or.inr (Or.inr (Or.inl h))))))
    · exact Or.inr (Or.inr (Or.inr (Or.inr (Or.inr (Or.inr (Or.inr (Or.inl h)))))))

/-- C2 (amended): In the Boltz launcher each of the five boolean command
flags emits exactly one of its two mutually exclusive tokens (never both,
never neither); the AlphaFold 3 launcher emits exactly one explicit
`--flag=true`/`--flag=false` token per boolean command flag; in the Chai
launcher a boolean flag emits its single token only when its value
differs from the wrapped tool's default, and emits no token otherwise. -/
theorem boolean_flag_token_emission :
    (∀ (cOut cCache : String) (chk : Option String) (fl : boltz.Flags),
      (("--write_full_pae" ∈ boltz.commandArgs cOut cCache chk fl) ↔ fl.write_full_pae = true) ∧
      (("--no-write-full-pae" ∈ boltz.commandArgs cOut cCache chk fl) ↔ fl.write_full_pae = false) ∧
      (("--write_full_pde" ∈ boltz.commandArgs cOut cCache chk fl) ↔ fl.write_full_pde = true) ∧
      (("--no-write-full-pde" ∈ boltz.commandArgs cOut cCache chk fl) ↔ fl.write_full_pde = false) ∧
      (("--override" ∈ boltz.commandArgs cOut cCache chk fl) ↔ fl.override = true) ∧
      (("--no-override" ∈ boltz.commandArgs cOut cCache chk fl) ↔ fl.override = false) ∧
      (("--use_msa_server" ∈ boltz.commandArgs cOut cCache chk fl) ↔ fl.use_msa_server = true) ∧
      (("--no-use-msa-server" ∈ boltz.commandArgs cOut cCache chk fl) ↔ fl.use_msa_server = false) ∧
      (("--potentials" ∈ boltz.commandArgs cOut cCache chk fl) ↔ fl.enable_potentials = true) ∧
      (("--no_potentials" ∈ boltz.commandArgs cOut cCache chk fl) ↔ fl.enable_potentials = false)) ∧
    (∀ (inp : af3.InputSel) (cOut cModel : String) (dbPaths : List String)
        (fl : af3.Flags),
      (("--run_data_pipeline=" ++ pyBool fl.run_data_pipeline ∈ af3.commandArgs inp cOut cModel dbPaths fl) ∧
        ¬ ("--run_data_pipeline=" ++ pyBool (!fl.run_data_pipeline) ∈ af3.commandArgs inp cOut cModel dbPaths fl)) ∧
      (("--run_inference=" ++ pyBool fl.run_inference ∈ af3.commandArgs inp cOut cModel dbPaths fl) ∧
        ¬ ("--run_inference=" ++ pyBool (!fl.run_inference) ∈ af3.commandArgs inp cOut cModel dbPaths fl)) ∧
      (("--save_embeddings=" ++ pyBool fl.save_embeddings ∈ af3.commandArgs inp cOut cModel dbPaths fl) ∧
        ¬ ("--save_embeddings=" ++ pyBool (!fl.save_embeddings) ∈ af3.commandArgs inp cOut cModel dbPaths fl)) ∧
      (("--force_output_dir=" ++ pyBool fl.force_output_dir ∈ af3.commandArgs inp cOut cModel dbPaths fl) ∧
        ¬ ("--force_output_dir=" ++ pyBool (!fl.force_output_dir) ∈ af3.commandArgs inp cOut cModel dbPaths fl))) ∧
    (∀ (m c tp : Option String) (fl : chai.Flags),
      (("--use-esm-embeddings=false" ∈ chai.commandArgs m c tp fl) ↔ fl.use_esm_embeddings = false) ∧
      (("--use-msa-server" ∈ chai.commandArgs m c tp fl) ↔ fl.use_msa_server = true) ∧
      (("--use-templates-server" ∈ chai.commandArgs m c tp fl) ↔ fl.use_templates_server = true) ∧
      (("--low-memory=false" ∈ chai.commandArgs m c tp fl) ↔ fl.low_memory = false)) := by
  refine ⟨?_, ?_, ?_⟩
  · intro cOut cCache chk fl
    refine ⟨?_, ?_, ?_, ?_, ?_, ?_, ?_, ?_, ?_, ?_⟩
    · rw [boltz_noeq_token_mem (by decide)]
      constructor
      · rintro (h | h | h | h | h)
        all_goals first
          | exact absurd h (ne_ite (by decide) (by decide))
          | (cases hov : fl.write_full_pae <;>
              first
                | rfl
                | (simp only [hov] at h; exact absurd h (by decide)))
      · intro hov
        refine Or.inl ?_
        simp [hov]
    · rw [boltz_noeq_token_mem (by decide)]
      constructor
      · rintro (h | h | h | h | h)
        all_goals first
          | exact absurd h (ne_ite (by decide) (by decide))
          | (cases hov : fl.write_full_pae <;>
              first
                | rfl
                | (simp only [hov] at h; exact absurd h (by decide)))
      · intro hov
        refine Or.inl ?_
        simp [hov]
    · rw [boltz_noeq_token_mem (by decide)]
      constructor
      · rintro (h | h | h | h | h)
        all_goals first
          | exact absurd h (ne_ite (by decide) (by decide))
          | (cases hov : fl.write_full_pde <;>
              first
                | rfl
                | (simp only [hov] at h; exact absurd h (by decide)))
      · intro hov
        refine Or.inr (Or.inl ?_)
        simp [hov]
    · rw [boltz_noeq_token_mem (by decide)]
      constructor
      · rintro (h | h | h | h | h)
        all_goals first
          | exact absurd h (ne_ite (by decide) (by decide))
          | (cases hov : fl.write_full_pde <;>
              first
                | rfl
                | (simp only [hov] at h; exact absurd h (by decide)))
      · intro hov
        refine Or.inr (Or.inl ?_)
        simp [hov]
    · rw [boltz_noeq_token_mem (by decide)]
      constructor
      · rintro (h | h | h | h | h)
        all_goals first
          | exact absurd h (ne_ite (by decide) (by decide))
          | (cases hov : fl.override <;>
              first
                | rfl
                | (simp only [hov] at h; exact absurd h (by decide)))
      · intro hov
        refine Or.inr (Or.inr (Or.inl ?_))
        simp [hov]
    · rw [boltz_noeq_token_mem (by decide)]
      constructor
      · rintro (h | h | h | h | h)
        all_goals first
          | exact absurd h (ne_ite (by decide) (by decide))
          | (cases hov : fl.override <;>
              first
                | rfl
                | (simp only [hov] at h; exact absurd h (by decide)))
      · intro hov
        refine Or.inr (Or.inr (Or.inl ?_))
        simp [hov]
    · rw [boltz_noeq_token_mem (by decide)]
      constructor
      · rintro (h | h | h | h | h)
        all_goals first
          | exact absurd h (ne_ite (by decide) (by decide))
          | (cases hov : fl.use_msa_server <;>
              first
                | rfl
                | (simp only [hov] at h; exact absurd h (by decide)))
      · intro hov
        refine Or.inr (Or.inr (Or.inr (Or.inl ?_)))
        simp [hov]
    · rw [boltz_noeq_token_mem (by decide)]
      constructor
      · rintro (h | h | h | h | h)
        all_goals first
          | exact absurd h (ne_ite (by decide) (by decide))
          | (cases hov : fl.use_msa_server <;>
              first
                | rfl
                | (simp only [hov] at h; exact absurd h (by decide)))
      · intro hov
        refine Or.inr (Or.inr (Or.inr (Or.inl ?_)))
        simp [hov]
    · rw [boltz_noeq_token_mem (by decide)]
      constructor
      · rintro (h | h | h | h | h)
        all_goals first
          | exact absurd h (ne_ite (by decide) (by decide))
          | (cases hov : fl.enable_potentials <;>
              first
                | rfl
                | (simp only [hov] at h; exact absurd h (by decide)))
      · intro hov
        refine Or.inr (Or.inr (Or.inr (Or.inr (?_))))
        simp [hov]
    · rw [boltz_noeq_token_mem (by decide)]
      constructor
      · rintro (h | h | h | h | h)
        all_goals first
          | exact absurd h (ne_ite (by decide) (by decide))
          | (cases hov : fl.enable_potentials <;>
              first
                | rfl
                | (simp only [hov] at h; exact absurd h (by decide)))
      · intro hov
        refine Or.inr (Or.inr (Or.inr (Or.inr (?_))))
        simp [hov]
  · intro inp cOut cModel dbPaths fl
    refine ⟨?_, ?_, ?_, ?_⟩
    · refine ⟨?_, ?_⟩
      · rw [mem_af3_commandArgs]
        exact Or.inr (Or.inr (Or.inr (Or.inr (Or.inr (Or.inl rfl)))))
      · rw [mem_af3_commandArgs]
        rintro (⟨cp, hcp, h⟩ | ⟨cp, hcp, h⟩ | h | h | ⟨c, hc, h⟩ | h | h | h | h | h | h | h |
          h | h | h | h | h | ⟨n, hn, h⟩)
        all_goals first
          | exact absurd h (str_take_min_ne (by decide) _ _)
          | exact absurd h (str_take_min_ne_left (by decide) _)
          | exact absurd (str_app_left_cancel h)
              (by cases fl.run_data_pipeline <;> decide)
    · refine ⟨?_, ?_⟩
      · rw [mem_af3_commandArgs]
        exact Or.inr (Or.inr (Or.inr (Or.inr (Or.inr (Or.inr (Or.inl rfl))))))
      · rw [mem_af3_commandArgs]
        rintro (⟨cp, hcp, h⟩ | ⟨cp, hcp, h⟩ | h | h | ⟨c, hc, h⟩ | h | h | h | h | h | h | h |
          h | h | h | h | h | ⟨n, hn, h⟩)
        all_goals first
          | exact absurd h (str_take_min_ne (by decide) _ _)
          | exact absurd h (str_take_min_ne_left (by decide) _)
          | exact absurd (str_app_left_cancel h)
              (by cases fl.run_inference <;> decide)
    · refine ⟨?_, ?_⟩
      · rw [mem_af3_commandArgs]
        exact Or.inr (Or.inr (Or.inr (Or.inr (Or.inr (Or.inr (Or.inr (Or.inr (Or.inr (Or.inr (Or.inr (Or.inr (Or.inr (Or.inr (Or.inl rfl))))))))))))))
      · rw [mem_af3_commandArgs]
        rintro (⟨cp, hcp, h⟩ | ⟨cp, hcp, h⟩ | h | h | ⟨c, hc, h⟩ | h | h | h | h | h | h | h |
          h | h | h | h | h | ⟨n, hn, h⟩)
        all_goals first
          | exact absurd h (str_take_min_ne (by decide) _ _)
          | exact absurd h (str_take_min_ne_left (by decide) _)
          | exact absurd (str_app_left_cancel h)
              (by cases fl.save_embeddings <;> decide)
    · refine ⟨?_, ?_⟩
      · rw [mem_af3_commandArgs]
        exact Or.inr (Or.inr (Or.inr (Or.inr (Or.inr (Or.inr (Or.inr (Or.inr (Or.inr (Or.inr (Or.inr (Or.inr (Or.inr (Or.inr (Or.inr (Or.inl rfl)))))))))))))))
      · rw [mem_af3_commandArgs]
        rintro (⟨cp, hcp, h⟩ | ⟨cp, hcp, h⟩ | h | h | ⟨c, hc, h⟩ | h | h | h | h | h | h | h |
          h | h | h | h | h | ⟨n, hn, h⟩)
        all_goals first
          | exact absurd h (str_take_min_ne (by decide) _ _)
          | exact absurd h (str_take_min_ne_left (by decide) _)
          | exact absurd (str_app_left_cancel h)
              (by cases fl.force_output_dir <;> decide)
  · intro m c tp fl
    refine ⟨?_, ?_, ?_, ?_⟩
    · rw [mem_chai_commandArgs]
      constructor
      · rintro (⟨d, hd, h⟩ | ⟨d, hd, h⟩ | ⟨d, hd, h⟩ | ⟨hc, h⟩ | ⟨hc, h⟩ | ⟨hc, h⟩ | ⟨hc, h⟩ |
          ⟨hc, h⟩ | ⟨hc, h⟩ | ⟨hc, h⟩ | ⟨hc, h⟩ | ⟨hc, h⟩ | ⟨hc, h⟩ | ⟨s, hs, h⟩ |
          ⟨d, hd, hne, h⟩)
        all_goals first
          | assumption
          | exact absurd h (str_take_min_ne_right (by decide) _)
          | exact absurd h (by decide)
      · intro hc
        exact Or.inr (Or.inr (Or.inr (Or.inl ⟨hc, rfl⟩)))
    · rw [mem_chai_commandArgs]
      constructor
      · rintro (⟨d, hd, h⟩ | ⟨d, hd, h⟩ | ⟨d, hd, h⟩ | ⟨hc, h⟩ | ⟨hc, h⟩ | ⟨hc, h⟩ | ⟨hc, h⟩ |
          ⟨hc, h⟩ | ⟨hc, h⟩ | ⟨hc, h⟩ | ⟨hc, h⟩ | ⟨hc, h⟩ | ⟨hc, h⟩ | ⟨s, hs, h⟩ |
          ⟨d, hd, hne, h⟩)
        all_goals first
          | assumption
          | exact absurd h (str_take_min_ne_right (by decide) _)
          | exact absurd h (by decide)
      · intro hc
        exact Or.inr (Or.inr (Or.inr (Or.inr (Or.inl ⟨hc, rfl⟩))))
    · rw [mem_chai_commandArgs]
      constructor
      · rintro (⟨d, hd, h⟩ | ⟨d, hd, h⟩ | ⟨d, hd, h⟩ | ⟨hc, h⟩ | ⟨hc, h⟩ | ⟨hc, h⟩ | ⟨hc, h⟩ |
          ⟨hc, h⟩ | ⟨hc, h⟩ | ⟨hc, h⟩ | ⟨hc, h⟩ | ⟨hc, h⟩ | ⟨hc, h⟩ | ⟨s, hs, h⟩ |
          ⟨d, hd, hne, h⟩)
        all_goals first
          | assumption
          | exact absurd h (str_take_min_ne_right (by decide) _)
          | exact absurd h (by decide)
      · intro hc
        exact Or.inr (Or.inr (Or.inr (Or.inr (Or.inr (Or.inl ⟨hc, rfl⟩)))))
    · rw [mem_chai_commandArgs]
      constructor
      · rintro (⟨d, hd, h⟩ | ⟨d, hd, h⟩ | ⟨d, hd, h⟩ | ⟨hc, h⟩ | ⟨hc, h⟩ | ⟨hc, h⟩ | ⟨hc, h⟩ |
          ⟨hc, h⟩ | ⟨hc, h⟩ | ⟨hc, h⟩ | ⟨hc, h⟩ | ⟨hc, h⟩ | ⟨hc, h⟩ | ⟨s, hs, h⟩ |
          ⟨d, hd, hne, h⟩)
        all_goals first
          | assumption
          | exact absurd h (str_take_min_ne_right (by decide) _)
          | exact absurd h (by decide)
      · intro hc
        exact Or.inr (Or.inr (Or.inr (Or.inr (Or.inr (Or.inr (Or.inl ⟨hc, rfl⟩))))))

/-- Witness for C2: with the Boltz flag defaults, the disabled token
`--no-override` appears in the assembled command. -/
theorem boolean_flag_token_emission_witness :
    "--no-override" ∈ boltz.commandArgs "/mnt_launcher/output"
      "/mnt_launcher/boltz_cache" none boltz.flagDefaults :=
  ((boolean_flag_token_emission.1 "/mnt_launcher/output"
    "/mnt_launcher/boltz_cache" none boltz.flagDefaults).2.2.2.2.2.1).mpr rfl

/-- Counterexample for C2 as stated: in the Chai launcher, with every flag
at its default, the boolean flag `use_msa_server` is false yet the
assembled flag-argument list is empty — it contains neither an "enabled"
nor a "disabled" token for that flag (absence means default). -/
theorem chai_defaults_emit_no_boolean_token :
    chai.flagDefaults.use_msa_server = false ∧
    chai.commandArgs none none none chai.flagDefaults = [] := by
  exact ⟨rfl, rfl⟩

/-- C3 (amended): In the Boltz launcher, when `use_msa_server` is false no
`--msa_server_url` or `--msa_pairing_strategy` token is emitted,
regardless of those flags' values; in the Chai launcher the
`--msa-server-url` token is emitted exactly when the URL differs from its
recorded default, independently of `use_msa_server` (Chai has no pairing
strategy flag). -/
theorem msa_conditional_flag_emission :
    (∀ (cOut cCache : String) (chk : Option String) (fl : boltz.Flags),
      fl.use_msa_server = false →
      (∀ s, ¬ ("--msa_server_url=" ++ s ∈ boltz.commandArgs cOut cCache chk fl)) ∧
      (∀ s, ¬ ("--msa_pairing_strategy=" ++ s ∈ boltz.commandArgs cOut cCache chk fl))) ∧
    (∀ (m c tp : Option String) (fl : chai.Flags),
      ("--msa-server-url=" ++ fl.msa_server_url ∈ chai.commandArgs m c tp fl) ↔
        ¬ fl.msa_server_url = "https://api.colabfold.com") := by
  constructor
  · intro cOut cCache chk fl hms
    constructor
    all_goals
      intro s
      rw [mem_boltz_commandArgs]
      rintro (h | h | ⟨c, hc, h⟩ | h | h | h | h | h | ⟨hc, h⟩ | ⟨hc, h⟩ | ⟨hc, h⟩ |
        ⟨hc, h⟩ | ⟨hc, h⟩ | ⟨hc, h⟩ | ⟨hc, h⟩ | ⟨hc, h⟩ | ⟨s2, hc, h⟩ |
        ⟨hu, hc, h⟩ | ⟨hu, hc, h⟩)
      all_goals first
        | exact absurd h (str_take_min_ne (by decide) _ _)
        | exact absurd h (ne_ite (str_take_min_ne_left (by decide) _)
            (str_take_min_ne_left (by decide) _))
        | (rw [hms] at hu; exact Bool.noConfusion hu)
  · intro m c tp fl
    rw [mem_chai_commandArgs]
    constructor
    · rintro (⟨d, hd, h⟩ | ⟨d, hd, h⟩ | ⟨d, hd, h⟩ | ⟨hc, h⟩ | ⟨hc, h⟩ | ⟨hc, h⟩ |
        ⟨hc, h⟩ | ⟨hc, h⟩ | ⟨hc, h⟩ | ⟨hc, h⟩ | ⟨hc, h⟩ | ⟨hc, h⟩ | ⟨hc, h⟩ |
        ⟨s, hs, h⟩ | ⟨d, hd, hne, h⟩)
      all_goals first
        | assumption
        | exact absurd h (str_take_min_ne (by decide) _ _)
        | exact absurd h (str_take_min_ne_left (by decide) _)
    · intro hne
      exact Or.inr (Or.inr (Or.inr (Or.inr (Or.inr (Or.inr (Or.inr
        (Or.inl ⟨hne, rfl⟩)))))))

/-- Witness for C3: with the Boltz defaults (`use_msa_server = false`), a
non-default URL token is still not emitted. -/
theorem msa_conditional_flag_emission_witness :
    ¬ ("--msa_server_url=" ++ "http://altserver" ∈
      boltz.commandArgs "/o" "/c" none boltz.flagDefaults) :=
  ((msa_conditional_flag_emission.1 "/o" "/c" none boltz.flagDefaults rfl).1
    "http://altserver")

/-- Counterexample for C3 as stated: in the Chai launcher, with
`use_msa_server = false` and a non-default MSA server URL, the assembled
argument list still contains the `--msa-server-url` token. -/
theorem chai_url_emitted_when_server_disabled :
    chaiMsaDemo.use_msa_server = false ∧
    chai.commandArgs none none none chaiMsaDemo =
      ["--msa-server-url=http://altserver"] :=
  ⟨rfl, rfl⟩

/-- C4 (amended): In the Boltz and Chai launchers a scalar flag token is
emitted only when the flag's value differs from its recorded default
(exact equality for integers/enums/strings; the epsilon comparison with
tolerance 1e-6 for Boltz's float `step_scale`; set-vs-`None` for the
optional seed flags and for Chai's optional device flag), so a flag at
its default is never emitted.  The AlphaFold 3 launcher instead emits its
scalar flags unconditionally, regardless of their defaults — only
`num_seeds` is suppressed, exactly when unset. -/
theorem scalar_flag_default_suppression :
    (∀ (cOut cCache : String) (chk : Option String) (fl : boltz.Flags),
      (fl.devices = 1 →
        ∀ s, ¬ ("--devices=" ++ s ∈ boltz.commandArgs cOut cCache chk fl)) ∧
      (fl.accelerator = "gpu" →
        ∀ s, ¬ ("--accelerator=" ++ s ∈ boltz.commandArgs cOut cCache chk fl)) ∧
      (fl.recycling_steps = 3 →
        ∀ s, ¬ ("--recycling_steps=" ++ s ∈ boltz.commandArgs cOut cCache chk fl)) ∧
      (fl.sampling_steps = 200 →
        ∀ s, ¬ ("--sampling_steps=" ++ s ∈ boltz.commandArgs cOut cCache chk fl)) ∧
      (fl.diffusion_samples = 1 →
        ∀ s, ¬ ("--diffusion_samples=" ++ s ∈ boltz.commandArgs cOut cCache chk fl)) ∧
      (|fl.step_scale - 1.638| ≤ 1e-6 →
        ∀ s, ¬ ("--step_scale=" ++ s ∈ boltz.commandArgs cOut cCache chk fl)) ∧
      (fl.output_format = "mmcif" →
        ∀ s, ¬ ("--output_format=" ++ s ∈ boltz.commandArgs cOut cCache chk fl)) ∧
      (fl.num_workers = 2 →
        ∀ s, ¬ ("--num_workers=" ++ s ∈ boltz.commandArgs cOut cCache chk fl)) ∧
      (fl.seed = none →
        ∀ s, ¬ ("--seed=" ++ s ∈ boltz.commandArgs cOut cCache chk fl)) ∧
      (fl.msa_server_url = "https://api.colabfold.com" →
        ∀ s, ¬ ("--msa_server_url=" ++ s ∈ boltz.commandArgs cOut cCache chk fl)) ∧
      (fl.msa_pairing_strategy = "greedy" →
        ∀ s, ¬ ("--msa_pairing_strategy=" ++ s ∈ boltz.commandArgs cOut cCache chk fl))) ∧
    (∀ (m c tp : Option String) (fl : chai.Flags),
      (fl.msa_server_url = "https://api.colabfold.com" →
        ∀ s, ¬ ("--msa-server-url=" ++ s ∈ chai.commandArgs m c tp fl)) ∧
      (fl.recycle_msa_subsample = 0 →
        ∀ s, ¬ ("--recycle-msa-subsample=" ++ s ∈ chai.commandArgs m c tp fl)) ∧
      (fl.num_trunk_recycles = 3 →
        ∀ s, ¬ ("--num-trunk-recycles=" ++ s ∈ chai.commandArgs m c tp fl)) ∧
      (fl.num_diffn_timesteps = 200 →
        ∀ s, ¬ ("--num-diffn-timesteps=" ++ s ∈ chai.commandArgs m c tp fl)) ∧
      (fl.num_diffn_samples = 5 →
        ∀ s, ¬ ("--num-diffn-samples=" ++ s ∈ chai.commandArgs m c tp fl)) ∧
      (fl.num_trunk_samples = 1 →
        ∀ s, ¬ ("--num-trunk-samples=" ++ s ∈ chai.commandArgs m c tp fl)) ∧
      (fl.seed = none →
        ∀ s, ¬ ("--seed=" ++ s ∈ chai.commandArgs m c tp fl)) ∧
      (fl.device = none →
        ∀ s, ¬ ("--device=" ++ s ∈ chai.commandArgs m c tp fl))) ∧
    (∀ (inp : af3.InputSel) (cOut cModel : String) (dbPaths : List String)
        (fl : af3.Flags),
      ("--conformer_max_iterations=" ++ toString fl.conformer_max_iterations ∈ af3.commandArgs inp cOut cModel dbPaths fl) ∧
      ("--jackhmmer_n_cpu=" ++ toString fl.jackhmmer_n_cpu ∈ af3.commandArgs inp cOut cModel dbPaths fl) ∧
      ("--nhmmer_n_cpu=" ++ toString fl.nhmmer_n_cpu ∈ af3.commandArgs inp cOut cModel dbPaths fl) ∧
      ("--max_template_date=" ++ fl.max_template_date ∈ af3.commandArgs inp cOut cModel dbPaths fl) ∧
      ("--num_recycles=" ++ toString fl.num_recycles ∈ af3.commandArgs inp cOut cModel dbPaths fl) ∧
      ("--num_diffusion_samples=" ++ toString fl.num_diffusion_samples ∈ af3.commandArgs inp cOut cModel dbPaths fl) ∧
      ("--flash_attention_implementation=" ++ fl.flash_attention_implementation ∈ af3.commandArgs inp cOut cModel dbPaths fl) ∧
      (fl.num_seeds = none →
        ∀ s, ¬ ("--num_seeds=" ++ s ∈ af3.commandArgs inp cOut cModel dbPaths fl))) := by
  refine ⟨?_, ?_, ?_⟩
  · intro cOut cCache chk fl
    refine ⟨?_, ?_, ?_, ?_, ?_, ?_, ?_, ?_, ?_, ?_, ?_⟩
    · intro hdef s
      rw [mem_boltz_commandArgs]
      rintro (h | h | ⟨c2, hc, h⟩ | h | h | h | h | h | ⟨hc, h⟩ | ⟨hc, h⟩ | ⟨hc, h⟩ |
          ⟨hc, h⟩ | ⟨hc, h⟩ | ⟨hc, h⟩ | ⟨hc, h⟩ | ⟨hc, h⟩ | ⟨s2, hc, h⟩ |
          ⟨hu, hc, h⟩ | ⟨hu, hc, h⟩)
      all_goals first
        | exact absurd h (str_take_min_ne (by decide) _ _)
        | exact absurd h (ne_ite (str_take_min_ne_left (by decide) _)
            (str_take_min_ne_left (by decide) _))
        | exact absurd hdef hc
    · intro hdef s
      rw [mem_boltz_commandArgs]
      rintro (h | h | ⟨c2, hc, h⟩ | h | h | h | h | h | ⟨hc, h⟩ | ⟨hc, h⟩ | ⟨hc, h⟩ |
          ⟨hc, h⟩ | ⟨hc, h⟩ | ⟨hc, h⟩ | ⟨hc, h⟩ | ⟨hc, h⟩ | ⟨s2, hc, h⟩ |
          ⟨hu, hc, h⟩ | ⟨hu, hc, h⟩)
      all_goals first
        | exact absurd h (str_take_min_ne (by decide) _ _)
        | exact absurd h (ne_ite (str_take_min_ne_left (by decide) _)
            (str_take_min_ne_left (by decide) _))
        | exact absurd hdef hc
    · intro hdef s
      rw [mem_boltz_commandArgs]
      rintro (h | h | ⟨c2, hc, h⟩ | h | h | h | h | h | ⟨hc, h⟩ | ⟨hc, h⟩ | ⟨hc, h⟩ |
          ⟨hc, h⟩ | ⟨hc, h⟩ | ⟨hc, h⟩ | ⟨hc, h⟩ | ⟨hc, h⟩ | ⟨s2, hc, h⟩ |
          ⟨hu, hc, h⟩ | ⟨hu, hc, h⟩)
      all_goals first
        | exact absurd h (str_take_min_ne (by decide) _ _)
        | exact absurd h (ne_ite (str_take_min_ne_left (by decide) _)
            (str_take_min_ne_left (by decide) _))
        | exact absurd hdef hc
    · intro hdef s
      rw [mem_boltz_commandArgs]
      rintro (h | h | ⟨c2, hc, h⟩ | h | h | h | h | h | ⟨hc, h⟩ | ⟨hc, h⟩ | ⟨hc, h⟩ |
          ⟨hc, h⟩ | ⟨hc, h⟩ | ⟨hc, h⟩ | ⟨hc, h⟩ | ⟨hc, h⟩ | ⟨s2, hc, h⟩ |
          ⟨hu, hc, h⟩ | ⟨hu, hc, h⟩)
      all_goals first
        | exact absurd h (str_take_min_ne (by decide) _ _)
        | exact absurd h (ne_ite (str_take_min_ne_left (by decide) _)
            (str_take_min_ne_left (by decide) _))
        | exact absurd hdef hc
    · intro hdef s
      rw [mem_boltz_commandArgs]
      rintro (h | h | ⟨c2, hc, h⟩ | h | h | h | h | h | ⟨hc, h⟩ | ⟨hc, h⟩ | ⟨hc, h⟩ |
          ⟨hc, h⟩ | ⟨hc, h⟩ | ⟨hc, h⟩ | ⟨hc, h⟩ | ⟨hc, h⟩ | ⟨s2, hc, h⟩ |
          ⟨hu, hc, h⟩ | ⟨hu, hc, h⟩)
      all_goals first
        | exact absurd h (str_take_min_ne (by decide) _ _)
        | exact absurd h (ne_ite (str_take_min_ne_left (by decide) _)
            (str_take_min_ne_left (by decide) _))
        | exact absurd hdef hc
    · intro hdef s
      rw [mem_boltz_commandArgs]
      rintro (h | h | ⟨c2, hc, h⟩ | h | h | h | h | h | ⟨hc, h⟩ | ⟨hc, h⟩ | ⟨hc, h⟩ |
          ⟨hc, h⟩ | ⟨hc, h⟩ | ⟨hc, h⟩ | ⟨hc, h⟩ | ⟨hc, h⟩ | ⟨s2, hc, h⟩ |
          ⟨hu, hc, h⟩ | ⟨hu, hc, h⟩)
      all_goals first
        | exact absurd h (str_take_min_ne (by decide) _ _)
        | exact absurd h (ne_ite (str_take_min_ne_left (by decide) _)
            (str_take_min_ne_left (by decide) _))
        | exact absurd hc (not_lt.mpr hdef)
    · intro hdef s
      rw [mem_boltz_commandArgs]
      rintro (h | h | ⟨c2, hc, h⟩ | h | h | h | h | h | ⟨hc, h⟩ | ⟨hc, h⟩ | ⟨hc, h⟩ |
          ⟨hc, h⟩ | ⟨hc, h⟩ | ⟨hc, h⟩ | ⟨hc, h⟩ | ⟨hc, h⟩ | ⟨s2, hc, h⟩ |
          ⟨hu, hc, h⟩ | ⟨hu, hc, h⟩)
      all_goals first
        | exact absurd h (str_take_min_ne (by decide) _ _)
        | exact absurd h (ne_ite (str_take_min_ne_left (by decide) _)
            (str_take_min_ne_left (by decide) _))
        | exact absurd hdef hc
    · intro hdef s
      rw [mem_boltz_commandArgs]
      rintro (h | h | ⟨c2, hc, h⟩ | h | h | h | h | h | ⟨hc, h⟩ | ⟨hc, h⟩ | ⟨hc, h⟩ |
          ⟨hc, h⟩ | ⟨hc, h⟩ | ⟨hc, h⟩ | ⟨hc, h⟩ | ⟨hc, h⟩ | ⟨s2, hc, h⟩ |
          ⟨hu, hc, h⟩ | ⟨hu, hc, h⟩)
      all_goals first
        | exact absurd h (str_take_min_ne (by decide) _ _)
        | exact absurd h (ne_ite (str_take_min_ne_left (by decide) _)
            (str_take_min_ne_left (by decide) _))
        | exact absurd hdef hc
    · intro hdef s
      rw [mem_boltz_commandArgs]
      rintro (h | h | ⟨c2, hc, h⟩ | h | h | h | h | h | ⟨hc, h⟩ | ⟨hc, h⟩ | ⟨hc, h⟩ |
          ⟨hc, h⟩ | ⟨hc, h⟩ | ⟨hc, h⟩ | ⟨hc, h⟩ | ⟨hc, h⟩ | ⟨s2, hc, h⟩ |
          ⟨hu, hc, h⟩ | ⟨hu, hc, h⟩)
      all_goals first
        | exact absurd h (str_take_min_ne (by decide) _ _)
        | exact absurd h (ne_ite (str_take_min_ne_left (by decide) _)
            (str_take_min_ne_left (by decide) _))
        | (rw [hdef] at hc; exact Option.noConfusion hc)
    · intro hdef s
      rw [mem_boltz_commandArgs]
      rintro (h | h | ⟨c2, hc, h⟩ | h | h | h | h | h | ⟨hc, h⟩ | ⟨hc, h⟩ | ⟨hc, h⟩ |
          ⟨hc, h⟩ | ⟨hc, h⟩ | ⟨hc, h⟩ | ⟨hc, h⟩ | ⟨hc, h⟩ | ⟨s2, hc, h⟩ |
          ⟨hu, hc, h⟩ | ⟨hu, hc, h⟩)
      all_goals first
        | exact absurd h (str_take_min_ne (by decide) _ _)
        | exact absurd h (ne_ite (str_take_min_ne_left (by decide) _)
            (str_take_min_ne_left (by decide) _))
        | exact absurd hdef hc
    · intro hdef s
      rw [mem_boltz_commandArgs]
      rintro (h | h | ⟨c2, hc, h⟩ | h | h | h | h | h | ⟨hc, h⟩ | ⟨hc, h⟩ | ⟨hc, h⟩ |
          ⟨hc, h⟩ | ⟨hc, h⟩ | ⟨hc, h⟩ | ⟨hc, h⟩ | ⟨hc, h⟩ | ⟨s2, hc, h⟩ |
          ⟨hu, hc, h⟩ | ⟨hu, hc, h⟩)
      all_goals first
        | exact absurd h (str_take_min_ne (by decide) _ _)
        | exact absurd h (ne_ite (str_take_min_ne_left (by decide) _)
            (str_take_min_ne_left (by decide) _))
        | exact absurd hdef hc
  · intro m c tp fl
    refine ⟨?_, ?_, ?_, ?_, ?_, ?_, ?_, ?_⟩
    · intro hdef s
      rw [mem_chai_commandArgs]
      rintro (⟨d, hdv, h⟩ | ⟨d, hdv, h⟩ | ⟨d, hdv, h⟩ | ⟨hc, h⟩ | ⟨hc, h⟩ | ⟨hc, h⟩ |
          ⟨hc, h⟩ | ⟨hc, h⟩ | ⟨hc, h⟩ | ⟨hc, h⟩ | ⟨hc, h⟩ | ⟨hc, h⟩ | ⟨hc, h⟩ |
          ⟨s2, hsd, h⟩ | ⟨d, hdv, hne2, h⟩)
      all_goals first
        | exact absurd h (str_take_min_ne (by decide) _ _)
        | exact absurd h (str_take_min_ne_left (by decide) _)
        | exact absurd hdef hc
    · intro hdef s
      rw [mem_chai_commandArgs]
      rintro (⟨d, hdv, h⟩ | ⟨d, hdv, h⟩ | ⟨d, hdv, h⟩ | ⟨hc, h⟩ | ⟨hc, h⟩ | ⟨hc, h⟩ |
          ⟨hc, h⟩ | ⟨hc, h⟩ | ⟨hc, h⟩ | ⟨hc, h⟩ | ⟨hc, h⟩ | ⟨hc, h⟩ | ⟨hc, h⟩ |
          ⟨s2, hsd, h⟩ | ⟨d, hdv, hne2, h⟩)
      all_goals first
        | exact absurd h (str_take_min_ne (by decide) _ _)
        | exact absurd h (str_take_min_ne_left (by decide) _)
        | exact absurd hdef hc
    · intro hdef s
      rw [mem_chai_commandArgs]
      rintro (⟨d, hdv, h⟩ | ⟨d, hdv, h⟩ | ⟨d, hdv, h⟩ | ⟨hc, h⟩ | ⟨hc, h⟩ | ⟨hc, h⟩ |
          ⟨hc, h⟩ | ⟨hc, h⟩ | ⟨hc, h⟩ | ⟨hc, h⟩ | ⟨hc, h⟩ | ⟨hc, h⟩ | ⟨hc, h⟩ |
          ⟨s2, hsd, h⟩ | ⟨d, hdv, hne2, h⟩)
      all_goals first
        | exact absurd h (str_take_min_ne (by decide) _ _)
        | exact absurd h (str_take_min_ne_left (by decide) _)
        | exact absurd hdef hc
    · intro hdef s
      rw [mem_chai_commandArgs]
      rintro (⟨d, hdv, h⟩ | ⟨d, hdv, h⟩ | ⟨d, hdv, h⟩ | ⟨hc, h⟩ | ⟨hc, h⟩ | ⟨hc, h⟩ |
          ⟨hc, h⟩ | ⟨hc, h⟩ | ⟨hc, h⟩ | ⟨hc, h⟩ | ⟨hc, h⟩ | ⟨hc, h⟩ | ⟨hc, h⟩ |
          ⟨s2, hsd, h⟩ | ⟨d, hdv, hne2, h⟩)
      all_goals first
        | exact absurd h (str_take_min_ne (by decide) _ _)
        | exact absurd h (str_take_min_ne_left (by decide) _)
        | exact absurd hdef hc
    · intro hdef s
      rw [mem_chai_commandArgs]
      rintro (⟨d, hdv, h⟩ | ⟨d, hdv, h⟩ | ⟨d, hdv, h⟩ | ⟨hc, h⟩ | ⟨hc, h⟩ | ⟨hc, h⟩ |
          ⟨hc, h⟩ | ⟨hc, h⟩ | ⟨hc, h⟩ | ⟨hc, h⟩ | ⟨hc, h⟩ | ⟨hc, h⟩ | ⟨hc, h⟩ |
          ⟨s2, hsd, h⟩ | ⟨d, hdv, hne2, h⟩)
      all_goals first
        | exact absurd h (str_take_min_ne (by decide) _ _)
        | exact absurd h (str_take_min_ne_left (by decide) _)
        | exact absurd hdef hc
    · intro hdef s
      rw [mem_chai_commandArgs]
      rintro (⟨d, hdv, h⟩ | ⟨d, hdv, h⟩ | ⟨d, hdv, h⟩ | ⟨hc, h⟩ | ⟨hc, h⟩ | ⟨hc, h⟩ |
          ⟨hc, h⟩ | ⟨hc, h⟩ | ⟨hc, h⟩ | ⟨hc, h⟩ | ⟨hc, h⟩ | ⟨hc, h⟩ | ⟨hc, h⟩ |
          ⟨s2, hsd, h⟩ | ⟨d, hdv, hne2, h⟩)
      all_goals first
        | exact absurd h (str_take_min_ne (by decide) _ _)
        | exact absurd h (str_take_min_ne_left (by decide) _)
        | exact absurd hdef hc
    · intro hdef s
      rw [mem_chai_commandArgs]
      rintro (⟨d, hdv, h⟩ | ⟨d, hdv, h⟩ | ⟨d, hdv, h⟩ | ⟨hc, h⟩ | ⟨hc, h⟩ | ⟨hc, h⟩ |
          ⟨hc, h⟩ | ⟨hc, h⟩ | ⟨hc, h⟩ | ⟨hc, h⟩ | ⟨hc, h⟩ | ⟨hc, h⟩ | ⟨hc, h⟩ |
          ⟨s2, hsd, h⟩ | ⟨d, hdv, hne2, h⟩)
      all_goals first
        | exact absurd h (str_take_min_ne (by decide) _ _)
        | exact absurd h (str_take_min_ne_left (by decide) _)
        | (rw [hdef] at hsd; exact Option.noConfusion hsd)
    · intro hdef s
      rw [mem_chai_commandArgs]
      rintro (⟨d, hdv, h⟩ | ⟨d, hdv, h⟩ | ⟨d, hdv, h⟩ | ⟨hc, h⟩ | ⟨hc, h⟩ | ⟨hc, h⟩ |
          ⟨hc, h⟩ | ⟨hc, h⟩ | ⟨hc, h⟩ | ⟨hc, h⟩ | ⟨hc, h⟩ | ⟨hc, h⟩ | ⟨hc, h⟩ |
          ⟨s2, hsd, h⟩ | ⟨d, hdv, hne2, h⟩)
      all_goals first
        | exact absurd h (str_take_min_ne (by decide) _ _)
        | exact absurd h (str_take_min_ne_left (by decide) _)
        | (rw [hdef] at hdv; exact Option.noConfusion hdv)
  · intro inp cOut cModel dbPaths fl
    refine ⟨?_, ?_, ?_, ?_, ?_, ?_, ?_, ?_⟩
    · rw [mem_af3_commandArgs]
      exact Or.inr (Or.inr (Or.inr (Or.inr (Or.inr (Or.inr (Or.inr (Or.inl rfl)))))))
    · rw [mem_af3_commandArgs]
      exact Or.inr (Or.inr (Or.inr (Or.inr (Or.inr (Or.inr (Or.inr (Or.inr (Or.inl rfl))))))))
    · rw [mem_af3_commandArgs]
      exact Or.inr (Or.inr (Or.inr (Or.inr (Or.inr (Or.inr (Or.inr (Or.inr (Or.inr (Or.inl rfl)))))))))
    · rw [mem_af3_commandArgs]
      exact Or.inr (Or.inr (Or.inr (Or.inr (Or.inr (Or.inr (Or.inr (Or.inr (Or.inr (Or.inr (Or.inl rfl))))))))))
    · rw [mem_af3_commandArgs]
      exact Or.inr (Or.inr (Or.inr (Or.inr (Or.inr (Or.inr (Or.inr (Or.inr (Or.inr (Or.inr (Or.inr (Or.inl rfl)))))))))))
    · rw [mem_af3_commandArgs]
      exact Or.inr (Or.inr (Or.inr (Or.inr (Or.inr (Or.inr (Or.inr (Or.inr (Or.inr (Or.inr (Or.inr (Or.inr (Or.inl rfl))))))))))))
    · rw [mem_af3_commandArgs]
      exact Or.inr (Or.inr (Or.inr (Or.inr (Or.inr (Or.inr (Or.inr (Or.inr (Or.inr (Or.inr (Or.inr (Or.inr (Or.inr (Or.inl rfl)))))))))))))
    · intro hdef s
      rw [mem_af3_commandArgs]
      rintro (⟨cp, hcp, h⟩ | ⟨cp, hcp, h⟩ | h | h | ⟨c2, hc, h⟩ | h | h | h | h | h | h | h |
          h | h | h | h | h | ⟨n, hn, h⟩)
      all_goals first
        | exact absurd h (str_take_min_ne (by decide) _ _)
        | exact absurd h (str_take_min_ne_left (by decide) _)
        | (rw [hdef] at hn; exact Option.noConfusion hn)

/-- Witness for C4: with the Boltz defaults no `--devices=` token and no
`--step_scale=` token is emitted (the step-scale default satisfies the
epsilon comparison). -/
theorem scalar_flag_default_suppression_witness :
    ¬ ("--devices=" ++ "5" ∈ boltz.commandArgs "/o" "/c" none boltz.flagDefaults) ∧
    ¬ ("--step_scale=" ++ "2" ∈ boltz.commandArgs "/o" "/c" none boltz.flagDefaults) :=
  ⟨(scalar_flag_default_suppression.1 "/o" "/c" none boltz.flagDefaults).1 rfl "5",
   (scalar_flag_default_suppression.1 "/o" "/c" none boltz.flagDefaults).2.2.2.2.2.1
     (by simp [boltz.flagDefaults, eps_nonneg]) "2"⟩

/-- Counterexample for C4 as stated: the AlphaFold 3 launcher emits
`--num_recycles=10` even though the flag's value equals its recorded
default of 10. -/
theorem af3_emits_num_recycles_at_default :
    af3.flagDefaults.num_recycles = 10 ∧
    "--num_recycles=10" ∈ af3.commandArgs (.jsonSel "/mnt/json_input/in.json")
      "/mnt/output" "/mnt/models" ["/mnt/db_0"] af3.flagDefaults :=
  ⟨rfl, by decide⟩
